import Mathlib

/-!
Verification development for the ProjectsManager GitHub-synchronization core.

This file shallowly embeds the synchronization subsystem of the repository:
the GitHub API client (`services/github_service.py`), the per-scope
configuration resolver (`services/scope_service.py`,
`models/scope_github_config.py`), the per-task configuration store
(`services/task_service.py`, `models/task_github_config.py`,
`models/task.py`) and the orchestration handlers in `app.py`
(`github_issue_sync`, `github_issue_close`, `complete_task`, `delete_item`,
and their helpers `_clear_github_issue_link`, `_ensure_local_github_tag`,
`_tags_for_labels`, `_sync_task_from_issue`).

Modelling conventions:
* SQLAlchemy rows become Lean structures; nullable columns become `Option`
  fields.  Python truthiness of nullable integers / strings is made explicit
  through `truthyInt` / `truthyStr`.
* The remote HTTP world is a parameter: paginated endpoints take a function
  from page number to `(status, payload)`, single calls take their outcome
  (`Except GitHubError _`) as an argument.  The label store used by
  `_ensure_label` is a list of label names.
* Datetime values are kept abstract as their ISO strings.
* `db.session.commit()` is assumed to succeed (the transactional store is an
  external collaborator); sync-log rows are returned as lists of records.
-/

namespace ProjectsManager

/-- Python truthiness of a nullable integer column (`None` and `0` are falsy). -/
def truthyInt : Option Int → Bool
  | none => false
  | some n => n != 0

/-- Python truthiness of a nullable string column (`None` and `""` are falsy). -/
def truthyStr : Option String → Bool
  | none => false
  | some s => s != ""

/-- ASCII lower-casing of one character (Python `str.lower()` on the ASCII
range; the configuration values at play are ASCII). -/
def lowerChar (c : Char) : Char :=
  if 'A' ≤ c ∧ c ≤ 'Z' then Char.ofNat (c.toNat + 32) else c

/-- Python `str.lower()`, character-wise. -/
def lowerStr (s : String) : String := ⟨s.data.map lowerChar⟩

/-- Python `str.strip()`: drop leading and trailing whitespace. -/
def stripStr (s : String) : String :=
  ⟨((s.data.dropWhile Char.isWhitespace).reverse.dropWhile Char.isWhitespace).reverse⟩

/-- Python `str.lstrip("#")`: drop leading `#` characters. -/
def lstripHash (s : String) : String := ⟨s.data.dropWhile (· = '#')⟩

/-! ## `services/github_service.py` — the remote tracker client -/

/-- `GITHUB_APP_LABEL` from `services/github_service.py`. -/
def GITHUB_APP_LABEL : String := "ProjectsManager"

/-- `MISSING_ISSUE_STATUS_CODES = {404, 410}`. -/
def MISSING_ISSUE_STATUS_CODES : List Int := [404, 410]

/-- `GitHubError(message, status_code)` raised by the client. -/
structure GitHubError where
  message : String
  statusCode : Option Int
deriving DecidableEq, Repr

/-- `error.status_code in GITHUB_MISSING_ISSUE_STATUS_CODES` (a `None`
status code is never a missing-issue code). -/
def isMissingStatus : Option Int → Bool
  | none => false
  | some n => n ∈ MISSING_ISSUE_STATUS_CODES

/-- The simplified issue payload `GitHubIssue` returned from GitHub. -/
structure GitHubIssue where
  id : Int
  nodeId : String
  number : Int
  title : String
  body : String
  url : String
  state : String
  labels : List String
  milestoneNumber : Option Int
  milestoneTitle : String
  milestoneState : Option String
  milestoneDueOn : Option String
deriving DecidableEq, Repr

/-- `GitHubRepository` dataclass. -/
structure GitHubRepository where
  id : Int
  name : String
  owner : String
deriving DecidableEq, Repr

/-- One element of the JSON payload of `GET /user/repos`: the fields
`list_repositories` reads (`repo["id"]`, `repo["name"]`,
`repo.get("owner", {}).get("login")`). -/
structure RepoPayloadItem where
  ownerLogin : Option String
  id : Int
  name : String
deriving DecidableEq, Repr

/-- A paginated HTTP world: page number to `(status, payload)`. -/
def PageWorld (α : Type) := Nat → Int × List α

/-- The per-page collection loop of `list_repositories`: keep the
repositories whose `owner.login` is present. -/
def collectRepos (payload : List RepoPayloadItem) : List GitHubRepository :=
  payload.filterMap fun repo => repo.ownerLogin.map fun owner => ⟨repo.id, repo.name, owner⟩

/-- Loop body of `list_repositories`: raise on `401`, raise a generic error
on any other status `>= 400`, stop on an *empty* page, otherwise collect the
repositories whose owner login is present and continue with the next page.
The Python loop is `while True`; `fuel` bounds the recursion, and running out
of fuel models the loop not terminating. -/
def listRepositoriesAux (pages : PageWorld RepoPayloadItem) :
    Nat → Nat → List GitHubRepository → Except GitHubError (List GitHubRepository)
  | 0, _, _ => .error ⟨"loop did not terminate", none⟩
  | fuel + 1, page, acc =>
    let (status, payload) := pages page
    if status = 401 then .error ⟨"Unauthorized", some status⟩
    else if status ≥ 400 then .error ⟨"Unable to list repositories", some status⟩
    else if payload = [] then .ok acc
    else
      listRepositoriesAux pages fuel (page + 1) (acc ++ collectRepos payload)

/-- `list_repositories(token)`, starting from page 1 with an empty accumulator. -/
def list_repositories (pages : PageWorld RepoPayloadItem) (fuel : Nat) :
    Except GitHubError (List GitHubRepository) :=
  listRepositoriesAux pages fuel 1 []

/-- One element of the classic projects payload: the fields
`_list_classic_repository_projects` reads. -/
structure ProjectPayloadItem where
  id : Option Int
  name : Option String
  body : Option String
deriving DecidableEq, Repr

/-- A classic project entry `{"id": ..., "name": ..., "type": "classic"}`. -/
structure ProjectEntry where
  id : String
  name : String
  type : String
deriving DecidableEq, Repr

/-- Python `a or b` on two nullable strings (empty strings are falsy). -/
def orStr (a b : Option String) : Option String :=
  if truthyStr a then a else b

/-- `project.get("name") or project.get("body") or f"Project #{identifier}"`. -/
def projectDisplayName (item : ProjectPayloadItem) (identifier : Int) : String :=
  match orStr item.name (orStr item.body none) with
  | some s => s
  | none => "Project #" ++ toString identifier

/-- The per-page collection loop of `_list_classic_repository_projects`:
keep the projects with an id. -/
def collectProjects (payload : List ProjectPayloadItem) : List ProjectEntry :=
  payload.filterMap fun project =>
    project.id.map fun identifier =>
      ⟨toString identifier, projectDisplayName project identifier, "classic"⟩

/-- Loop body of `_list_classic_repository_projects`: `401/403` raise
`Unauthorized`, `404` raises `Repository not found`, `410` raises the
distinct projects-unavailable error, other `>= 400` raise a generic error;
an empty page stops the loop, and a page shorter than 100 stops it after
collecting. -/
def listClassicRepositoryProjectsAux (pages : PageWorld ProjectPayloadItem) :
    Nat → Nat → List ProjectEntry → Except GitHubError (List ProjectEntry)
  | 0, _, _ => .error ⟨"loop did not terminate", none⟩
  | fuel + 1, page, acc =>
    let (status, payload) := pages page
    if status = 401 ∨ status = 403 then .error ⟨"Unauthorized", some status⟩
    else if status = 404 then .error ⟨"Repository not found", some status⟩
    else if status = 410 then
      .error ⟨"GitHub repository projects are not available for this repository.", some status⟩
    else if status ≥ 400 then .error ⟨"Unable to list projects", some status⟩
    else if payload = [] then .ok acc
    else
      let collected := collectProjects payload
      if payload.length < 100 then .ok (acc ++ collected)
      else listClassicRepositoryProjectsAux pages fuel (page + 1) (acc ++ collected)

/-- `_list_classic_repository_projects(token, owner, repo)`. -/
def list_classic_repository_projects (pages : PageWorld ProjectPayloadItem) (fuel : Nat) :
    Except GitHubError (List ProjectEntry) :=
  listClassicRepositoryProjectsAux pages fuel 1 []

/-- One element of the milestones payload: the fields
`list_repository_milestones` reads. -/
structure MilestonePayloadItem where
  number : Option Int
  title : Option String
  state : Option String
  dueOn : Option String
deriving DecidableEq, Repr

/-- A collected milestone entry. -/
structure MilestoneEntry where
  number : Int
  title : String
  state : String
  dueOn : Option String
deriving DecidableEq, Repr

/-- The per-page collection loop of `list_repository_milestones`: keep the
milestones with a number, defaulting title and state. -/
def collectMilestones (payload : List MilestonePayloadItem) : List MilestoneEntry :=
  payload.filterMap fun milestone =>
    milestone.number.map fun number =>
      { number := number
        title := match orStr milestone.title none with
          | some s => s
          | none => "Milestone #" ++ toString number
        state := match orStr milestone.state none with
          | some s => s
          | none => "open"
        dueOn := milestone.dueOn }

/-- Loop body of `list_repository_milestones`: `401/403` raise
`Unauthorized`, `404` raises `Repository not found`, other `>= 400` raise a
generic error; an empty page stops the loop, and a page shorter than 100
stops it after collecting. -/
def listRepositoryMilestonesAux (pages : PageWorld MilestonePayloadItem) :
    Nat → Nat → List MilestoneEntry → Except GitHubError (List MilestoneEntry)
  | 0, _, _ => .error ⟨"loop did not terminate", none⟩
  | fuel + 1, page, acc =>
    let (status, payload) := pages page
    if status = 401 ∨ status = 403 then .error ⟨"Unauthorized", some status⟩
    else if status = 404 then .error ⟨"Repository not found", some status⟩
    else if status ≥ 400 then .error ⟨"Unable to list milestones", some status⟩
    else if payload = [] then .ok acc
    else
      let collected := collectMilestones payload
      if payload.length < 100 then .ok (acc ++ collected)
      else listRepositoryMilestonesAux pages fuel (page + 1) (acc ++ collected)

/-- `list_repository_milestones(token, owner, repo)`. -/
def list_repository_milestones (pages : PageWorld MilestonePayloadItem) (fuel : Nat) :
    Except GitHubError (List MilestoneEntry) :=
  listRepositoryMilestonesAux pages fuel 1 []

/-! ### `_ensure_label`

The remote label store is a list of label names.  `GET /labels/<name>`
answers 200 when the label exists and 404 otherwise; `POST /labels` answers
422 (already exists) when the label exists and 201 after creating it. -/

/-- Status of `GET /repos/{owner}/{repo}/labels/{label}`. -/
def labelGetStatus (world : List String) (label : String) : Int :=
  if label ∈ world then 200 else 404

/-- `POST /repos/{owner}/{repo}/labels`: `(status, new world)`. -/
def labelCreate (world : List String) (label : String) : Int × List String :=
  if label ∈ world then (422, world) else (201, world ++ [label])

/-- `_ensure_label(token, owner, repo, label)`: GET the label; if 404, POST a
create; raise unless the create status is one of `200/201/202/204/422`.
Returns the remote label store after the call. -/
def ensure_label (world : List String) (label : String) :
    Except GitHubError (List String) :=
  let status := labelGetStatus world label
  if status = 404 then
    let (createStatus, world') := labelCreate world label
    if createStatus = 200 ∨ createStatus = 201 ∨ createStatus = 202 ∨
        createStatus = 204 ∨ createStatus = 422 then
      .ok world'
    else
      .error ⟨"Unable to create label", some createStatus⟩
  else
    .ok world

/-! ## `models/scope_github_config.py` — per-scope configuration rows -/

/-- One `scope_github_config` row (the `scope_id` column is implicit in the
owning `ScopeState`). -/
structure ScopeGitHubConfig where
  userId : Int
  githubIntegrationEnabled : Bool
  githubRepoId : Option Int
  githubRepoName : Option String
  githubRepoOwner : Option String
  githubProjectId : Option String
  githubProjectName : Option String
  githubMilestoneNumber : Option Int
  githubMilestoneTitle : Option String
  githubLabelName : Option String
  isSharedRepo : Bool
  sourceUserId : Option Int
  isDetached : Bool
deriving DecidableEq, Repr

/-- `ScopeGitHubConfig.shares_repository_with`: both configs must name a
repository owner and name; compare numeric ids when both are truthy,
otherwise compare lower-cased owner+name. -/
def sharesRepositoryWith (self : ScopeGitHubConfig) (other : Option ScopeGitHubConfig) : Bool :=
  match other with
  | none => false
  | some other =>
    if ¬ (truthyStr self.githubRepoOwner ∧ truthyStr self.githubRepoName) then false
    else if ¬ (truthyStr other.githubRepoOwner ∧ truthyStr other.githubRepoName) then false
    else if truthyInt self.githubRepoId ∧ truthyInt other.githubRepoId then
      self.githubRepoId = other.githubRepoId
    else
      self.githubRepoOwner.map lowerStr = other.githubRepoOwner.map lowerStr ∧
      self.githubRepoName.map lowerStr = other.githubRepoName.map lowerStr

/-- `ScopeGitHubConfig.is_linked_to(owner)`. -/
def isLinkedTo (self : ScopeGitHubConfig) (owner : Option ScopeGitHubConfig) : Bool :=
  match owner with
  | none => false
  | some owner =>
    if owner.userId = self.userId then false
    else if self.isDetached then false
    else if ¬ self.isSharedRepo then false
    else if truthyInt self.sourceUserId ∧ self.sourceUserId ≠ some owner.userId then false
    else sharesRepositoryWith self (some owner)

/-- `clone_repository_metadata_from`. -/
def cloneRepositoryMetadataFrom (self other : ScopeGitHubConfig) : ScopeGitHubConfig :=
  { self with
    githubRepoId := other.githubRepoId
    githubRepoName := other.githubRepoName
    githubRepoOwner := other.githubRepoOwner }

/-- `clone_project_and_label_from`. -/
def cloneProjectAndLabelFrom (self other : ScopeGitHubConfig) : ScopeGitHubConfig :=
  { self with
    githubProjectId := other.githubProjectId
    githubProjectName := other.githubProjectName
    githubLabelName := other.githubLabelName }

/-- `clone_milestone_from`. -/
def cloneMilestoneFrom (self other : ScopeGitHubConfig) : ScopeGitHubConfig :=
  { self with
    githubMilestoneNumber := other.githubMilestoneNumber
    githubMilestoneTitle := other.githubMilestoneTitle }

/-- `mark_as_shared_with(owner)`. -/
def markAsSharedWith (self owner : ScopeGitHubConfig) : ScopeGitHubConfig :=
  { self with isSharedRepo := true, isDetached := false, sourceUserId := some owner.userId }

/-- `mark_as_detached_from(owner)`. -/
def markAsDetachedFrom (self owner : ScopeGitHubConfig) : ScopeGitHubConfig :=
  { self with isSharedRepo := false, isDetached := true, sourceUserId := some owner.userId }

/-- `clear_shared_flags`. -/
def clearSharedFlags (self : ScopeGitHubConfig) : ScopeGitHubConfig :=
  { self with isSharedRepo := false, isDetached := false, sourceUserId := none }

/-! ## `services/scope_service.py` — per-scope configuration resolver -/

/-- A scope together with its `github_configs` relationship. -/
structure ScopeState where
  ownerId : Int
  githubConfigs : List ScopeGitHubConfig
deriving Repr

/-- `_lookup_config(scope, user_id)`: first config row of the scope with the
given user id (at most one exists by the `(scope_id, user_id)` unique
constraint). -/
def lookupScopeConfig (scope : ScopeState) (userId : Option Int) : Option ScopeGitHubConfig :=
  match userId with
  | none => none
  | some uid => scope.githubConfigs.find? fun config => config.userId == uid

/-- `get_scope_owner_github_config(scope)`. -/
def getScopeOwnerGithubConfig (scope : ScopeState) : Option ScopeGitHubConfig :=
  lookupScopeConfig scope (some scope.ownerId)

/-- `ScopeGitHubState` dataclass. -/
structure ScopeGitHubState where
  userConfig : Option ScopeGitHubConfig
  ownerConfig : Option ScopeGitHubConfig
  effectiveConfig : Option ScopeGitHubConfig
  linkedToOwner : Bool
  detachedFromOwner : Bool
deriving Repr

/-- `compute_scope_github_state(scope, user)`; `user` is the acting user's
id (`none` models an absent user). -/
def compute_scope_github_state (scope : Option ScopeState) (user : Option Int) :
    ScopeGitHubState :=
  match scope with
  | none => ⟨none, none, none, false, false⟩
  | some scope =>
    let ownerConfig := getScopeOwnerGithubConfig scope
    let userConfig : Option ScopeGitHubConfig :=
      match user with
      | none => none
      | some uid => if scope.ownerId = uid then ownerConfig else lookupScopeConfig scope (some uid)
    let effective₀ := match userConfig with
      | some c => some c
      | none => ownerConfig
    match userConfig, ownerConfig with
    | some uc, some oc =>
      if uc.userId ≠ oc.userId then
        let detached := uc.isDetached
        if isLinkedTo uc (some oc) then ⟨userConfig, ownerConfig, some oc, true, detached⟩
        else ⟨userConfig, ownerConfig, effective₀, false, detached⟩
      else ⟨userConfig, ownerConfig, effective₀, false, false⟩
    | _, _ => ⟨userConfig, ownerConfig, effective₀, false, false⟩

/-- `_snapshot_repository_configuration(config)`. -/
structure RepositorySnapshot where
  githubRepoId : Option Int
  githubRepoName : Option String
  githubRepoOwner : Option String
  githubProjectId : Option String
  githubProjectName : Option String
  githubMilestoneNumber : Option Int
  githubMilestoneTitle : Option String
  githubLabelName : Option String
  githubIntegrationEnabled : Bool
deriving DecidableEq, Repr

/-- `_snapshot_repository_configuration(config)`. -/
def snapshotRepositoryConfiguration (config : ScopeGitHubConfig) : RepositorySnapshot :=
  { githubRepoId := config.githubRepoId
    githubRepoName := config.githubRepoName
    githubRepoOwner := config.githubRepoOwner
    githubProjectId := config.githubProjectId
    githubProjectName := config.githubProjectName
    githubMilestoneNumber := config.githubMilestoneNumber
    githubMilestoneTitle := config.githubMilestoneTitle
    githubLabelName := config.githubLabelName
    githubIntegrationEnabled := config.githubIntegrationEnabled }

/-- `_apply_repository_snapshot(config, snapshot)`. -/
def applyRepositorySnapshot (config : ScopeGitHubConfig) (snapshot : RepositorySnapshot) :
    ScopeGitHubConfig :=
  { config with
    githubRepoId := snapshot.githubRepoId
    githubRepoName := snapshot.githubRepoName
    githubRepoOwner := snapshot.githubRepoOwner
    githubProjectId := snapshot.githubProjectId
    githubProjectName := snapshot.githubProjectName
    githubMilestoneNumber := snapshot.githubMilestoneNumber
    githubMilestoneTitle := snapshot.githubMilestoneTitle
    githubLabelName := snapshot.githubLabelName
    githubIntegrationEnabled := snapshot.githubIntegrationEnabled }

/-- Per-row effect of `detach_shared_repository_configs`. -/
def detachConfigStep (ownerConfig : ScopeGitHubConfig) (snapshot : RepositorySnapshot)
    (config : ScopeGitHubConfig) : ScopeGitHubConfig :=
  if config.userId = ownerConfig.userId then config
  else if ¬ sharesRepositoryWith config (some ownerConfig) then config
  else applyRepositorySnapshot (markAsDetachedFrom config ownerConfig) snapshot

/-- `detach_shared_repository_configs(scope, owner_config)`. -/
def detach_shared_repository_configs (scope : ScopeState) (ownerConfig : ScopeGitHubConfig) :
    ScopeState :=
  let snapshot := snapshotRepositoryConfiguration ownerConfig
  { scope with githubConfigs := scope.githubConfigs.map (detachConfigStep ownerConfig snapshot) }

/-- Per-row effect of `propagate_owner_github_configuration`. -/
def propagateConfigStep (ownerConfig : ScopeGitHubConfig) (hasRepository : Bool)
    (config : ScopeGitHubConfig) : ScopeGitHubConfig :=
  if config.userId = ownerConfig.userId then config
  else if ¬ hasRepository ∨ ¬ sharesRepositoryWith config (some ownerConfig) then
    if config.isSharedRepo ∧ config.sourceUserId = some ownerConfig.userId then
      clearSharedFlags config
    else config
  else
    let config := cloneRepositoryMetadataFrom config ownerConfig
    let config := cloneProjectAndLabelFrom config ownerConfig
    let config := cloneMilestoneFrom config ownerConfig
    let config := { config with githubIntegrationEnabled := ownerConfig.githubIntegrationEnabled }
    markAsSharedWith config ownerConfig

/-- `propagate_owner_github_configuration(scope, owner_config)`. -/
def propagate_owner_github_configuration (scope : ScopeState) (ownerConfig : ScopeGitHubConfig) :
    ScopeState :=
  let hasRepository := truthyStr ownerConfig.githubRepoOwner && truthyStr ownerConfig.githubRepoName
  { scope with githubConfigs := scope.githubConfigs.map (propagateConfigStep ownerConfig hasRepository) }

/-! ## `models/task_github_config.py` — per-task configuration rows -/

/-- One `task_github_config` row (`task_id` implicit in the owning task). -/
structure TaskGHConfig where
  userId : Int
  githubIssueId : Option Int
  githubIssueNodeId : Option String
  githubIssueNumber : Option Int
  githubIssueUrl : Option String
  githubIssueState : Option String
  githubRepoId : Option Int
  githubRepoName : Option String
  githubRepoOwner : Option String
  githubProjectId : Option String
  githubProjectName : Option String
  githubMilestoneNumber : Option Int
  githubMilestoneTitle : Option String
  githubMilestoneDueOn : Option String
deriving DecidableEq, Repr

/-- A fresh `TaskGitHubConfig(task=task, user_id=user.id)` row. -/
def blankTaskConfig (userId : Int) : TaskGHConfig :=
  ⟨userId, none, none, none, none, none, none, none, none, none, none, none, none, none⟩

/-- `TaskGitHubConfig.has_issue_link()`:
`bool(self.github_issue_id and self.github_issue_number)`. -/
def hasIssueLink (config : TaskGHConfig) : Bool :=
  truthyInt config.githubIssueId && truthyInt config.githubIssueNumber

/-- `TaskGitHubConfig.issue_is_open()`: `False` without a link, `True` when
the stored state is `None`, otherwise `state.lower() == "open"`. -/
def issueIsOpen (config : TaskGHConfig) : Bool :=
  if ¬ hasIssueLink config then false
  else match config.githubIssueState with
    | none => true
    | some state => lowerStr state == "open"

/-! ## `models/task.py` — tasks -/

/-- Non-recursive fields of a `Task` row; tags are represented by their
names (tag names are unique within a scope). -/
structure TaskCore where
  name : String
  description : Option String
  ownerId : Option Int
  completed : Bool
  completedDate : Option String
  tags : List String
  configs : List TaskGHConfig
deriving DecidableEq, Repr

/-- A `Task` with its `subtasks` relationship. -/
inductive TaskState : Type where
  | mk (core : TaskCore) (subtasks : List TaskState)

/-- The non-recursive fields of a task. -/
def TaskState.core : TaskState → TaskCore
  | .mk core _ => core

/-- The subtasks of a task. -/
def TaskState.subtasks : TaskState → List TaskState
  | .mk _ subtasks => subtasks

/-- Replace the non-recursive fields of a task. -/
def TaskState.withCore (t : TaskState) (core : TaskCore) : TaskState :=
  .mk core t.subtasks

mutual
/-- `Task.complete_task()`: set `completed`, stamp `completed_date` with the
current time and cascade to every subtask. -/
def completeTask (now : String) : TaskState → TaskState
  | .mk core subtasks =>
    .mk { core with completed := true, completedDate := some now } (completeTaskList now subtasks)

/-- `complete_task` mapped over a subtask list. -/
def completeTaskList (now : String) : List TaskState → List TaskState
  | [] => []
  | t :: ts => completeTask now t :: completeTaskList now ts
end

mutual
/-- `Task.uncomplete_task()`: clear `completed` and `completed_date` and
cascade to every subtask. -/
def uncompleteTask : TaskState → TaskState
  | .mk core subtasks =>
    .mk { core with completed := false, completedDate := none } (uncompleteTaskList subtasks)

/-- `uncomplete_task` mapped over a subtask list. -/
def uncompleteTaskList : List TaskState → List TaskState
  | [] => []
  | t :: ts => uncompleteTask t :: uncompleteTaskList ts
end

/-! ## `services/task_service.py` — per-task configuration store -/

/-- `_lookup_config(task, user_id)` on the `github_configs` list. -/
def lookupTaskConfig (t : TaskState) (userId : Option Int) : Option TaskGHConfig :=
  match userId with
  | none => none
  | some uid => t.core.configs.find? fun config => config.userId == uid

/-- `get_task_owner_github_config(task)`. -/
def getTaskOwnerGithubConfig (t : TaskState) : Option TaskGHConfig :=
  lookupTaskConfig t t.core.ownerId

/-- `get_task_github_config(task, user)`: the user's own row if present,
else the task owner's row. -/
def getTaskGithubConfig (t : TaskState) (user : Option Int) : Option TaskGHConfig :=
  match user with
  | some uid =>
    match lookupTaskConfig t (some uid) with
    | some config => some config
    | none => getTaskOwnerGithubConfig t
  | none => getTaskOwnerGithubConfig t

/-- `ensure_task_github_config(task, user)` on the row list: get-or-create
the acting user's row (appended at the end of the relationship list). -/
def ensureRow (configs : List TaskGHConfig) (uid : Int) : List TaskGHConfig :=
  match configs.find? (fun config => config.userId == uid) with
  | some _ => configs
  | none => configs ++ [blankTaskConfig uid]

/-- Apply `f` to the first row of the acting user (`setattr` on the row
object returned by the lookup; at most one row per user exists by the
`(task_id, user_id)` unique constraint). -/
def updateRow (configs : List TaskGHConfig) (uid : Int) (f : TaskGHConfig → TaskGHConfig) :
    List TaskGHConfig :=
  match configs with
  | [] => []
  | config :: rest =>
    if config.userId = uid then f config :: rest
    else config :: updateRow rest uid f

/-- `Task._set_github_attr` with an acting user present: get-or-create the
acting user's row, then mutate it. -/
def setGithubAttr (t : TaskState) (actor : Int) (f : TaskGHConfig → TaskGHConfig) : TaskState :=
  t.withCore { t.core with configs := updateRow (ensureRow t.core.configs actor) actor f }

/-- `Task._get_github_attr` with an acting user present: read the attribute
off the resolved config (own row, else task owner's row). -/
def getGithubAttr {α : Type} (t : TaskState) (actor : Int) (f : TaskGHConfig → Option α) :
    Option α :=
  match getTaskGithubConfig t (some actor) with
  | some config => f config
  | none => none

/-- The `Task.github_issue_number` property for the acting user. -/
def taskGithubIssueNumber (t : TaskState) (actor : Int) : Option Int :=
  getGithubAttr t actor fun config => config.githubIssueNumber

/-- The `Task.has_github_issue` property for the acting user. -/
def taskHasGithubIssue (t : TaskState) (actor : Int) : Bool :=
  match getTaskGithubConfig t (some actor) with
  | some config => hasIssueLink config
  | none => false

/-- The `Task.github_issue_is_open` property for the acting user. -/
def taskGithubIssueIsOpen (t : TaskState) (actor : Int) : Bool :=
  match getTaskGithubConfig t (some actor) with
  | some config => issueIsOpen config
  | none => false

/-! ## `app.py` — orchestrator helpers -/

/-- `LOCAL_GITHUB_TAG_NAME = "github"`: the hidden system tag. -/
def LOCAL_GITHUB_TAG_NAME : String := "github"

/-- `GITHUB_ISSUE_MISSING_MESSAGE`. -/
def GITHUB_ISSUE_MISSING_MESSAGE : String :=
  "Linked GitHub issue could not be found and the link has been removed."

/-- The GitHub-relevant attributes of the request's scope: the tag names
visible to `Tag.query` (the scope's own tags plus global `scope_id is NULL`
tags) and the resolved scope project. -/
structure ScopeEnv where
  tagNames : List String
  projectId : Option String
  projectName : Option String
deriving DecidableEq, Repr

/-- The GitHub-relevant attributes of the acting `User` row. -/
structure UserState where
  githubIntegrationEnabled : Bool
  githubToken : Option String
deriving DecidableEq, Repr

/-- `_invalidate_github(user)`: disable integration and erase the token. -/
def invalidateGithub (_user : UserState) : UserState :=
  { githubIntegrationEnabled := false, githubToken := none }

/-- `_github_error_response(error)`: `(message, status)` where the status
falls back to 500 (`error.status_code or 500`). -/
def githubErrorResponse (e : GitHubError) : String × Int :=
  let status : Int := match e.statusCode with
    | some n => if n = 0 then 500 else n
    | none => 500
  if status = 401 ∨ status = 403 then
    ("GitHub authentication failed. Please update your token.", status)
  else if isMissingStatus (some status) then
    ("Requested GitHub resource was not found.", status)
  else
    ("An error occurred while communicating with GitHub.", status)

/-- One `SyncLog` row as appended by `_record_sync(task, action, status,
message)`. -/
structure SyncLogRecord where
  action : String
  status : String
  message : Option String
deriving DecidableEq, Repr

/-- The repository context computed by `_task_github_context`; the claims
only depend on its presence, the repository coordinates and the scope
project/milestone it carries. -/
structure GitHubCtx where
  owner : String
  name : String
  repoId : Option Int
  projectId : Option String
  projectName : Option String
  milestoneNumber : Option Int
  milestoneTitle : Option String
deriving DecidableEq, Repr

/-- `_remove_local_github_tag(task)`: drop the first tag whose lower-cased
name is the hidden tag name (the loop breaks after one removal). -/
def removeFirstGithubTag : List String → List String
  | [] => []
  | tag :: rest =>
    if lowerStr tag = LOCAL_GITHUB_TAG_NAME then rest
    else tag :: removeFirstGithubTag rest

/-- `_remove_local_github_tag(task)`. -/
def removeLocalGithubTag (t : TaskState) : TaskState :=
  t.withCore { t.core with tags := removeFirstGithubTag t.core.tags }

/-- `_ensure_local_github_tag(task)`: when the acting user's resolved issue
number is truthy, get-or-create the scope's hidden tag and attach it if it
is not already attached. -/
def ensureLocalGithubTag (actor : Int) (t : TaskState) : TaskState :=
  if ¬ truthyInt (taskGithubIssueNumber t actor) then t
  else if LOCAL_GITHUB_TAG_NAME ∈ t.core.tags then t
  else t.withCore { t.core with tags := t.core.tags ++ [LOCAL_GITHUB_TAG_NAME] }

/-- The thirteen field assignments of `_clear_github_issue_link` as one
row update (they all target the acting user's row, which the first property
setter gets-or-creates). -/
def clearIssueFields (c : TaskGHConfig) : TaskGHConfig :=
  { c with
    githubIssueId := none
    githubIssueNodeId := none
    githubIssueNumber := none
    githubIssueUrl := none
    githubIssueState := none
    githubRepoId := none
    githubRepoName := none
    githubRepoOwner := none
    githubProjectId := none
    githubProjectName := none
    githubMilestoneNumber := none
    githubMilestoneTitle := none
    githubMilestoneDueOn := none }

/-- `_clear_github_issue_link(task)`: null every issue / repository /
project / milestone field through the per-user property setters, then
remove the hidden tag. -/
def clearGithubIssueLink (actor : Int) (t : TaskState) : TaskState :=
  removeLocalGithubTag (setGithubAttr t actor clearIssueFields)

/-- The normalization `label.strip().lstrip("#").lower()` applied by
`_tags_for_labels`. -/
def normalizeLabel (label : String) : String :=
  lowerStr (lstripHash (stripStr label))

/-- The filter-and-normalize pass of `_tags_for_labels`: skip falsy labels
and labels whose raw lower-cased text is the reserved application label or
the hidden tag name, then normalize the survivors. -/
def normalizedLabels (labels : List String) : List String :=
  (labels.filter fun label =>
      label != "" &&
      lowerStr label != lowerStr GITHUB_APP_LABEL &&
      lowerStr label != LOCAL_GITHUB_TAG_NAME).map normalizeLabel

/-- The creation loop of `_tags_for_labels`: for each normalized name not
already present (`existing` keyed by name), create a scope tag and append
it to the running list. -/
def addMissingTags (tags : List String) : List String → List String
  | [] => tags
  | name :: rest =>
    if name ∈ tags then addMissingTags tags rest
    else addMissingTags (tags ++ [name]) rest

/-- `_tags_for_labels(scope, labels)` at tag-name granularity: an empty
normalized list short-circuits to `[]`; otherwise the tags found by the
query (scope or global tags whose name is among the normalized names) plus
newly created scope tags for the missing names. -/
def tagsForLabels (env : ScopeEnv) (labels : List String) : List String :=
  let normalized := normalizedLabels labels
  if normalized = [] then []
  else
    let existing := env.tagNames.filter fun name => name ∈ normalized
    addMissingTags existing normalized

/-- `_parse_github_datetime(value)` with dates kept abstract as ISO
strings: falsy or blank input gives `None`, otherwise the value is kept
(the `ValueError` branch for unparseable text is out of the model's scope —
no claim concerns malformed datetime strings). -/
def parseGithubDatetime (value : Option String) : Option String :=
  match value with
  | none => none
  | some text => if stripStr text = "" then none else some text

/-- Lines 809–814 of `_sync_task_from_issue`: copy the issue id (always
present on the payload) and, when truthy, the node id — one row update for
the acting user's row. -/
def syncIdentityStep (actor : Int) (issue : GitHubIssue) (t : TaskState) : TaskState :=
  setGithubAttr t actor fun c =>
    { c with
      githubIssueId := some issue.id
      githubIssueNodeId :=
        if issue.nodeId != "" then some issue.nodeId else c.githubIssueNodeId }

/-- Lines 815–816: `task.name = issue.title or task.name`,
`task.description = issue.body or task.description`. -/
def syncNameStep (issue : GitHubIssue) (t : TaskState) : TaskState :=
  t.withCore { t.core with
    name := if issue.title != "" then issue.title else t.core.name
    description := if issue.body != "" then some issue.body else t.core.description }

/-- Lines 817–822: copy the issue state and the milestone fields — one row
update for the acting user's row. -/
def syncMilestoneStep (actor : Int) (issue : GitHubIssue) (t : TaskState) : TaskState :=
  setGithubAttr t actor fun c =>
    { c with
      githubIssueState := some issue.state
      githubMilestoneNumber := issue.milestoneNumber
      githubMilestoneTitle :=
        if issue.milestoneTitle != "" then some issue.milestoneTitle else none
      githubMilestoneDueOn := parseGithubDatetime issue.milestoneDueOn }

/-- Lines 823–825: drop the task's project fields when the scope has no
configured project — one row update for the acting user's row. -/
def syncProjectStep (actor : Int) (env : ScopeEnv) (t : TaskState) : TaskState :=
  if ¬ truthyStr env.projectId then
    setGithubAttr t actor fun c => { c with githubProjectId := none, githubProjectName := none }
  else t

/-- Lines 826–831: map the issue state onto local completion. -/
def syncCompletionStep (now : String) (issue : GitHubIssue) (t : TaskState) : TaskState :=
  if issue.state = "closed" then
    if ¬ t.core.completed then completeTask now t else t
  else
    if t.core.completed then uncompleteTask t else t

/-- `_sync_task_from_issue(task, issue, scope)` acting as `actor` (`g.user`,
through the per-user property setters): copy issue identity, overwrite name
and description, copy state and milestone fields, drop the task project
when the scope has none, map issue state to local completion, replace the
tag set from the issue labels and re-attach the hidden tag. -/
def syncTaskFromIssue (actor : Int) (now : String) (env : ScopeEnv) (issue : GitHubIssue)
    (t : TaskState) : TaskState :=
  let t := syncIdentityStep actor issue t
  let t := syncNameStep issue t
  let t := syncMilestoneStep actor issue t
  let t := syncProjectStep actor env t
  let t := syncCompletionStep now issue t
  let t := t.withCore { t.core with tags := tagsForLabels env issue.labels }
  ensureLocalGithubTag actor t

/-- `_labels_for_github(task)`: the sorted set of trimmed tag names,
excluding the hidden tag name and the reserved application label. -/
def labelsForGithub (t : TaskState) : List String :=
  let names := (t.core.tags.map stripStr).filter fun name =>
    name != "" &&
    lowerStr name != LOCAL_GITHUB_TAG_NAME &&
    lowerStr name != lowerStr GITHUB_APP_LABEL
  names.dedup.insertionSort (· ≤ ·)

/-- `_apply_scope_project_to_task(task, scope, context, issue_node_id,
warnings, failure_message)` with the `add_issue_to_project` outcome as a
parameter. -/
def applyScopeProjectToTask (actor : Int) (env : ScopeEnv) (hasContext : Bool)
    (issueNodeId : Option String) (addOut : Except GitHubError Unit)
    (t : TaskState) (warnings : List String) (failureMessage : Option String) :
    TaskState × List String :=
  let projectId := env.projectId
  if ¬ truthyStr projectId then
    if truthyStr (getGithubAttr t actor fun c => c.githubProjectId) ∨
        truthyStr (getGithubAttr t actor fun c => c.githubProjectName) then
      (setGithubAttr t actor fun c =>
        { c with githubProjectId := none, githubProjectName := none }, warnings)
    else (t, warnings)
  else if truthyStr (getGithubAttr t actor fun c => c.githubProjectId) ∧
      getGithubAttr t actor (fun c => c.githubProjectId) = projectId then
    (setGithubAttr t actor fun c =>
      { c with githubProjectId := projectId, githubProjectName := env.projectName }, warnings)
  else if ¬ hasContext ∨ ¬ truthyStr issueNodeId then (t, warnings)
  else match addOut with
    | .error e =>
      let (message, _) := githubErrorResponse e
      if e.statusCode = some 401 ∨ e.statusCode = some 403 then (t, warnings ++ [message])
      else
        (t, warnings ++ [match failureMessage with
          | some m => m
          | none => "Issue synced but could not be added to the configured project."])
    | .ok _ =>
      (setGithubAttr t actor fun c =>
        { c with githubProjectId := projectId, githubProjectName := env.projectName }, warnings)

/-! ## `app.py` — route handlers -/

/-- JSON outcome of the `github_issue_sync` route. -/
structure SyncRouteResult where
  success : Bool
  httpStatus : Int
  unlinked : Bool
  message : Option String
deriving DecidableEq, Repr

/-- `github_issue_sync` (route `/api/github/issue/sync`), acting as the
task owner `actor` (enforced upstream by `_task_owner_guard`); the
`fetch_issue` and `add_issue_to_project` outcomes are parameters.  Returns
the task, the acting user row, the appended sync-log rows, the warnings and
the JSON result. -/
def github_issue_sync (actor : Int) (now : String) (env : ScopeEnv) (ctx : Option GitHubCtx)
    (user : UserState) (fetchOut : Except GitHubError GitHubIssue)
    (addProjectOut : Except GitHubError Unit) (t : TaskState) :
    TaskState × UserState × List SyncLogRecord × List String × SyncRouteResult :=
  if ¬ truthyInt (taskGithubIssueNumber t actor) then
    (t, user, [], [], ⟨false, 400, false, some "Task is not linked to a GitHub issue."⟩)
  else match ctx with
  | none => (t, user, [], [], ⟨false, 400, false, some "GitHub integration is not configured."⟩)
  | some _ =>
    match fetchOut with
    | .error e =>
      if isMissingStatus e.statusCode then
        let t := clearGithubIssueLink actor t
        let logs : List SyncLogRecord :=
          [⟨"sync_issue", "missing", some "Linked issue not found while syncing; link removed."⟩]
        (t, user, logs, [], ⟨true, 200, true, some GITHUB_ISSUE_MISSING_MESSAGE⟩)
      else
        let (message, status) := githubErrorResponse e
        let user := if e.statusCode = some 401 ∨ e.statusCode = some 403 then
            invalidateGithub user
          else user
        (t, user, [], [], ⟨false, status, false, some message⟩)
    | .ok issue =>
      let t := syncTaskFromIssue actor now env issue t
      let (t, warnings) :=
        applyScopeProjectToTask actor env true (some issue.nodeId) addProjectOut t [] none
      let logs : List SyncLogRecord :=
        [⟨"sync_issue", "success", some ("Issue #" ++ toString issue.number ++ " synced")⟩]
      (t, user, logs, warnings, ⟨true, 200, false, none⟩)

/-- Ordered observable actions of a completion-toggling handler. -/
inductive SyncEvent where
  | remoteCloseIssue
  | remoteCommentIssue
  | localCompleteTask
deriving DecidableEq, Repr

/-- JSON outcome of the `github_issue_close` route. -/
structure CloseRouteResult where
  success : Bool
  httpStatus : Int
  unlinked : Bool
  message : Option String
deriving DecidableEq, Repr

/-- Tail of `github_issue_close` after the `try` block: complete the task,
then either mirror the closed issue's state and record a success log (when
`close_issue` returned an issue) or null the stored state. -/
def finishGithubIssueClose (actor : Int) (now : String) (t : TaskState) (user : UserState)
    (logs : List SyncLogRecord) (events : List SyncEvent) (issueVar : Option GitHubIssue)
    (unlinked : Bool) :
    TaskState × UserState × List SyncLogRecord × List SyncEvent × CloseRouteResult :=
  let t := completeTask now t
  let events := events ++ [SyncEvent.localCompleteTask]
  let message : Option String := if unlinked then some GITHUB_ISSUE_MISSING_MESSAGE else none
  match issueVar with
  | some issue =>
    let t := setGithubAttr t actor fun c => { c with githubIssueState := some issue.state }
    let logs := logs ++
      [⟨"close_issue", "success", some ("Issue #" ++ toString issue.number ++ " closed")⟩]
    (t, user, logs, events, ⟨true, 200, unlinked, message⟩)
  | none =>
    let t := setGithubAttr t actor fun c => { c with githubIssueState := none }
    (t, user, logs, events, ⟨true, 200, unlinked, message⟩)

/-- `github_issue_close` (route `/api/github/issue/close`), acting as the
task owner `actor`; the `close_issue` and `comment_on_issue` outcomes are
parameters.  The returned event list records the order of the remote calls
and of the local completion mutation. -/
def github_issue_close (actor : Int) (now : String) (ctx : Option GitHubCtx) (user : UserState)
    (closeOut : Except GitHubError GitHubIssue) (commentOut : Except GitHubError Unit)
    (t : TaskState) :
    TaskState × UserState × List SyncLogRecord × List SyncEvent × CloseRouteResult :=
  if ¬ truthyInt (taskGithubIssueNumber t actor) then
    (t, user, [], [], ⟨false, 400, false, some "Task is not linked to a GitHub issue."⟩)
  else match ctx with
  | none => (t, user, [], [], ⟨false, 400, false, some "GitHub integration is not configured."⟩)
  | some _ =>
    let issueVar : Option GitHubIssue := match closeOut with
      | .ok issue => some issue
      | .error _ => none
    let errorOut : Option GitHubError := match closeOut with
      | .error e => some e
      | .ok _ => match commentOut with
        | .error e => some e
        | .ok _ => none
    let events : List SyncEvent := match closeOut with
      | .error _ => [SyncEvent.remoteCloseIssue]
      | .ok _ => [SyncEvent.remoteCloseIssue, SyncEvent.remoteCommentIssue]
    match errorOut with
    | some e =>
      if isMissingStatus e.statusCode then
        let t := clearGithubIssueLink actor t
        let logs : List SyncLogRecord :=
          [⟨"close_issue", "missing", some "Linked issue not found during close; link removed."⟩]
        finishGithubIssueClose actor now t user logs events issueVar true
      else
        let (message, status) := githubErrorResponse e
        let user := if e.statusCode = some 401 ∨ e.statusCode = some 403 then
            invalidateGithub user
          else user
        (t, user, [], events, ⟨false, status, false, some message⟩)
    | none => finishGithubIssueClose actor now t user [] events issueVar false

/-- JSON outcome of the `complete_task` toggle route. -/
structure ToggleRouteResult where
  success : Bool
  httpStatus : Int
  completed : Bool
  unlinked : Bool
  reopened : Bool
  closed : Bool
deriving DecidableEq, Repr

/-- `complete_task` (route `/complete_task/<id>`), the completion toggle:
acting user `actor` needs `user_can_edit_task` (`canEdit`); the remote
reopen / close+comment outcomes are parameters. -/
def complete_task_route (actor : Int) (now : String) (canEdit : Bool) (ctx : Option GitHubCtx)
    (user : UserState) (reopenOut : Except GitHubError GitHubIssue)
    (closeOut : Except GitHubError GitHubIssue) (commentOut : Except GitHubError Unit)
    (t : TaskState) :
    TaskState × UserState × List SyncLogRecord × ToggleRouteResult :=
  if ¬ canEdit then (t, user, [], ⟨false, 403, t.core.completed, false, false, false⟩)
  else
    let hasRemote := truthyInt (taskGithubIssueNumber t actor) && ctx.isSome
    if t.core.completed then
      if hasRemote then
        match reopenOut with
        | .ok issue =>
          let t := setGithubAttr t actor fun c => { c with githubIssueState := some issue.state }
          let logs : List SyncLogRecord :=
            [⟨"reopen_issue", "success", some ("Issue #" ++ toString issue.number ++ " reopened")⟩]
          let t := uncompleteTask t
          (t, user, logs, ⟨true, 200, false, false, true, false⟩)
        | .error e =>
          if isMissingStatus e.statusCode then
            let t := clearGithubIssueLink actor t
            let logs : List SyncLogRecord :=
              [⟨"reopen_issue", "missing", some "Linked issue not found while reopening; link removed."⟩]
            let t := uncompleteTask t
            (t, user, logs, ⟨true, 200, false, true, false, false⟩)
          else
            let user := if e.statusCode = some 401 ∨ e.statusCode = some 403 then
                invalidateGithub user
              else user
            let (_, status) := githubErrorResponse e
            (t, user, [], ⟨false, status, t.core.completed, false, false, false⟩)
      else
        let t := uncompleteTask t
        (t, user, [], ⟨true, 200, false, false, false, false⟩)
    else
      if hasRemote then
        let outcome : Except GitHubError GitHubIssue := match closeOut with
          | .error e => .error e
          | .ok issue => match commentOut with
            | .error e => .error e
            | .ok _ => .ok issue
        match outcome with
        | .ok issue =>
          let t := setGithubAttr t actor fun c => { c with githubIssueState := some issue.state }
          let logs : List SyncLogRecord :=
            [⟨"close_issue", "success", some ("Issue #" ++ toString issue.number ++ " closed")⟩]
          let t := completeTask now t
          (t, user, logs, ⟨true, 200, true, false, false, true⟩)
        | .error e =>
          if isMissingStatus e.statusCode then
            let t := clearGithubIssueLink actor t
            let logs : List SyncLogRecord :=
              [⟨"close_issue", "missing", some "Linked issue not found while closing; link removed."⟩]
            let t := completeTask now t
            (t, user, logs, ⟨true, 200, true, true, false, false⟩)
          else
            let user := if e.statusCode = some 401 ∨ e.statusCode = some 403 then
                invalidateGithub user
              else user
            let (_, status) := githubErrorResponse e
            (t, user, [], ⟨false, status, t.core.completed, false, false, false⟩)
      else
        let t := completeTask now t
        (t, user, [], ⟨true, 200, true, false, false, false⟩)

/-- JSON outcome of the `delete_item` route. -/
structure DeleteRouteResult where
  success : Bool
  httpStatus : Int
  message : String
  deleted : Bool
deriving DecidableEq, Repr

/-- The task branch of `delete_item` (route `/<item_type>/delete/<id>`):
permission guard, open-linked-issue guard, best-effort removal of the
reserved application label (whose outcome is a parameter), then the local
deletion. -/
def delete_item_task (actor : Int) (canDelete : Bool) (ctx : Option GitHubCtx)
    (user : UserState) (removeLabelOut : Except GitHubError (List String)) (t : TaskState) :
    UserState × DeleteRouteResult :=
  let deletedMessage :=
    if t.core.name != "" then "Task \"" ++ t.core.name ++ "\" deleted!" else "Task deleted!"
  if ¬ canDelete then
    (user, ⟨false, 403, "You do not have permission to delete this task.", false⟩)
  else if taskGithubIssueIsOpen t actor then
    (user, ⟨false, 400, "Task cannot be deleted until its linked GitHub issue is closed.", false⟩)
  else
    let githubContext := if truthyInt (taskGithubIssueNumber t actor) then ctx else none
    if githubContext.isSome ∧ truthyInt (taskGithubIssueNumber t actor) then
      match removeLabelOut with
      | .error e =>
        if ¬ isMissingStatus e.statusCode then
          let (message, status) := githubErrorResponse e
          let user := if e.statusCode = some 401 ∨ e.statusCode = some 403 then
              invalidateGithub user
            else user
          (user, ⟨false, status, message, false⟩)
        else (user, ⟨true, 200, deletedMessage, true⟩)
      | .ok _ => (user, ⟨true, 200, deletedMessage, true⟩)
    else (user, ⟨true, 200, deletedMessage, true⟩)

/-- The persistence segment of `github_issue_create` after `create_issue`
succeeded (lines 1387–1413 of `app.py`): attach the project, persist every
issue identity field on the acting user's config, attach the hidden tag and
record a success log. -/
def githubIssueCreatePersist (actor : Int) (env : ScopeEnv) (ctx : GitHubCtx)
    (addProjectOut : Except GitHubError Unit) (issue : GitHubIssue) (t : TaskState) :
    TaskState × List SyncLogRecord × List String :=
  let (t, warnings) := applyScopeProjectToTask actor env true (some issue.nodeId) addProjectOut t []
    (some "Issue created but could not be added to the configured project.")
  let t := setGithubAttr t actor fun c =>
    { c with
      githubIssueId := some issue.id
      githubIssueNodeId := if issue.nodeId != "" then some issue.nodeId else none
      githubIssueNumber := some issue.number
      githubIssueUrl := some issue.url
      githubIssueState := some issue.state
      githubRepoId := ctx.repoId
      githubRepoName := some ctx.name
      githubRepoOwner := some ctx.owner
      githubMilestoneNumber := issue.milestoneNumber
      githubMilestoneTitle := if issue.milestoneTitle != "" then some issue.milestoneTitle else none
      githubMilestoneDueOn := parseGithubDatetime issue.milestoneDueOn }
  let t := ensureLocalGithubTag actor t
  let logs : List SyncLogRecord :=
    [⟨"create_issue", "success", some ("Issue #" ++ toString issue.number ++ " created")⟩]
  (t, logs, warnings)

/-! ## Supporting concrete instances and claim-side references -/

/-- Claim-side reference for C9's repository clauses, following the claim's
words: pagination stops as soon as a short page (fewer than 100 items) is
returned, and 401/403 both raise the Unauthorized error. -/
def specListRepositoriesAux (pages : PageWorld RepoPayloadItem) :
    Nat → Nat → List GitHubRepository → Except GitHubError (List GitHubRepository)
  | 0, _, _ => .error ⟨"loop did not terminate", none⟩
  | fuel + 1, page, acc =>
    let (status, payload) := pages page
    if status = 401 ∨ status = 403 then .error ⟨"Unauthorized", some status⟩
    else if status ≥ 400 then .error ⟨"Unable to list repositories", some status⟩
    else
      let acc := acc ++ collectRepos payload
      if payload.length < 100 then .ok acc
      else specListRepositoriesAux pages fuel (page + 1) acc

/-- Claim-side reference for C9: `listRepositories` as the claim describes it. -/
def specListRepositories (pages : PageWorld RepoPayloadItem) (fuel : Nat) :
    Except GitHubError (List GitHubRepository) :=
  specListRepositoriesAux pages fuel 1 []

/-- A repository world whose first two pages are short but non-empty. -/
def cexRepoPages : PageWorld RepoPayloadItem := fun page =>
  if page = 1 then (200, [⟨some "octo", 1, "alpha"⟩])
  else if page = 2 then (200, [⟨some "octo", 2, "beta"⟩])
  else (200, [])

/-- A repository world with a single short page followed by empty pages. -/
def shortRepoPages : PageWorld RepoPayloadItem := fun page =>
  if page = 1 then (200, [⟨some "octo", 1, "alpha"⟩]) else (200, [])

/-- A linked config whose stored issue state is `None`. -/
def nullStateLinkedConfig : TaskGHConfig :=
  { blankTaskConfig 1 with githubIssueId := some 77, githubIssueNumber := some 5 }

/-- A task owned by user 1 carrying `nullStateLinkedConfig`. -/
def nullStateLinkedTask : TaskState :=
  .mk { name := "t", description := none, ownerId := some 1, completed := false,
        completedDate := none, tags := [LOCAL_GITHUB_TAG_NAME],
        configs := [nullStateLinkedConfig] } []

/-- A closed, linked config of user 1. -/
def closedLinkedConfig : TaskGHConfig :=
  { blankTaskConfig 1 with
    githubIssueId := some 77
    githubIssueNumber := some 5
    githubIssueState := some "closed" }

/-- A completed task owned by user 1 whose linked issue is closed. -/
def closedLinkedTask : TaskState :=
  .mk { name := "t", description := none, ownerId := some 1, completed := true,
        completedDate := some "2024-01-01T00:00:00Z", tags := [LOCAL_GITHUB_TAG_NAME],
        configs := [closedLinkedConfig] } []

/-- A concrete repository context. -/
def sampleCtx : GitHubCtx := ⟨"octo", "repo", some 1, none, none, none, none⟩

/-- The `source_user_id` gate inside `is_linked_to`: a truthy source-user
reference must name the owner. -/
def sourceUserOk (self owner : ScopeGitHubConfig) : Bool :=
  if truthyInt self.sourceUserId ∧ self.sourceUserId ≠ some owner.userId then false else true

/-- Claim-side linking condition for C4, following the claim's words: the
collaborator's config is not detached, is flagged shared, and its
repository identity matches the owner's. -/
def specLinkedToOwner (uc oc : ScopeGitHubConfig) : Bool :=
  !uc.isDetached && uc.isSharedRepo && sharesRepositoryWith uc (some oc)

/-- The owner's config row for the C4 counterexample scope. -/
def c4OwnerConfig : ScopeGitHubConfig :=
  { userId := 1, githubIntegrationEnabled := true, githubRepoId := some 10,
    githubRepoName := some "Repo", githubRepoOwner := some "Octo", githubProjectId := none,
    githubProjectName := none, githubMilestoneNumber := none, githubMilestoneTitle := none,
    githubLabelName := none, isSharedRepo := false, sourceUserId := none, isDetached := false }

/-- A collaborator row sharing the owner's repository, flagged shared and
not detached, but whose `source_user_id` names a third user. -/
def c4CollabConfig : ScopeGitHubConfig :=
  { c4OwnerConfig with userId := 2, isSharedRepo := true, sourceUserId := some 3 }

/-- The C4 counterexample scope: owner 1, collaborator 2. -/
def c4Scope : ScopeState := ⟨1, [c4OwnerConfig, c4CollabConfig]⟩

/-- A properly-linked collaborator row (`source_user_id` names the owner). -/
def c4LinkedCollabConfig : ScopeGitHubConfig :=
  { c4OwnerConfig with userId := 2, isSharedRepo := true, sourceUserId := some 1 }

/-- A scope whose collaborator row is properly linked to owner 1. -/
def c4LinkedScope : ScopeState := ⟨1, [c4OwnerConfig, c4LinkedCollabConfig]⟩

/-- Owner config for the C7 witness scope. -/
def c7OwnerConfig : ScopeGitHubConfig :=
  { userId := 1, githubIntegrationEnabled := true, githubRepoId := some 10,
    githubRepoName := some "Repo", githubRepoOwner := some "Octo", githubProjectId := none,
    githubProjectName := none, githubMilestoneNumber := none, githubMilestoneTitle := none,
    githubLabelName := some "pm", isSharedRepo := false, sourceUserId := none,
    isDetached := false }

/-- Collaborator config for the C7 witness scope (same repository). -/
def c7CollabConfig : ScopeGitHubConfig :=
  { c7OwnerConfig with userId := 2, isSharedRepo := true, sourceUserId := some 1 }

/-- The C7 witness scope. -/
def c7Scope : ScopeState := ⟨1, [c7OwnerConfig, c7CollabConfig]⟩

/-- An open, linked config of user 1 (for the sync witnesses). -/
def openLinkedConfig : TaskGHConfig :=
  { blankTaskConfig 1 with
    githubIssueId := some 77
    githubIssueNumber := some 5
    githubIssueState := some "open" }

/-- A task owned by user 1, linked through `openLinkedConfig`, carrying a
local-only tag beside the hidden tag. -/
def openLinkedTask : TaskState :=
  .mk { name := "t", description := none, ownerId := some 1, completed := false,
        completedDate := none, tags := ["personal", LOCAL_GITHUB_TAG_NAME],
        configs := [openLinkedConfig] } []

/-- A scope environment whose tag store already holds `bug`. -/
def sampleEnv : ScopeEnv := ⟨["personal", "bug", LOCAL_GITHUB_TAG_NAME], none, none⟩

/-- A remote issue reporting the labels `["bug", "feature"]`. -/
def sampleIssue : GitHubIssue :=
  { id := 77, nodeId := "N77", number := 5, title := "Issue title", body := "Body",
    url := "https://example.invalid/77", state := "open", labels := ["bug", "feature"],
    milestoneNumber := none, milestoneTitle := "", milestoneState := none,
    milestoneDueOn := none }

/-- The closed issue returned by a successful `close_issue` call. -/
def sampleClosedIssue : GitHubIssue :=
  { sampleIssue with state := "closed" }

/-- The invariant claimed for the hidden tag: it is attached to a task iff
some `TaskGitHubConfig` row of the task has an issue link. -/
def hiddenTagInvariant (t : TaskState) : Prop :=
  (LOCAL_GITHUB_TAG_NAME ∈ t.core.tags) ↔ (∃ c ∈ t.core.configs, hasIssueLink c = true)

instance (t : TaskState) : Decidable (hiddenTagInvariant t) := by
  unfold hiddenTagInvariant
  infer_instance

/-! # Helper lemmas about the per-task row store -/

theorem find?_row_userId {cs : List TaskGHConfig} {uid : Int} {c : TaskGHConfig}
    (h : cs.find? (fun x => x.userId == uid) = some c) : c.userId = uid := by
  have := List.find?_some h
  simpa using this

theorem lookupTaskConfig_userId {t : TaskState} {uid : Int} {c : TaskGHConfig}
    (h : lookupTaskConfig t (some uid) = some c) : c.userId = uid :=
  find?_row_userId h

theorem find?_ensureRow_self (cs : List TaskGHConfig) (uid : Int) :
    (ensureRow cs uid).find? (fun c => c.userId == uid) =
      some ((cs.find? (fun c => c.userId == uid)).getD (blankTaskConfig uid)) := by
  unfold ensureRow
  cases h : cs.find? (fun c => c.userId == uid) with
  | some c => simp [h]
  | none => simp [List.find?_append, h, List.find?, blankTaskConfig]

theorem find?_ensureRow_other (cs : List TaskGHConfig) (uid other : Int) (h : other ≠ uid) :
    (ensureRow cs uid).find? (fun c => c.userId == other) =
      cs.find? (fun c => c.userId == other) := by
  unfold ensureRow
  cases hfind : cs.find? (fun c => c.userId == uid) with
  | some c => rfl
  | none =>
    have hblank : ((blankTaskConfig uid).userId == other) = false := by
      simp [blankTaskConfig, Ne.symm h]
    simp [List.find?_append, List.find?, hblank]

theorem find?_updateRow_self (cs : List TaskGHConfig) (uid : Int)
    (f : TaskGHConfig → TaskGHConfig) (hf : ∀ c, (f c).userId = c.userId) :
    (updateRow cs uid f).find? (fun c => c.userId == uid) =
      (cs.find? (fun c => c.userId == uid)).map f := by
  induction cs with
  | nil => simp [updateRow, List.find?]
  | cons x rest ih =>
    by_cases hx : x.userId = uid
    · have hfx : ((f x).userId == uid) = true := by simp [hf x, hx]
      have hxx : (x.userId == uid) = true := by simp [hx]
      simp [updateRow, hx, List.find?, hfx, hxx]
    · have hxx : (x.userId == uid) = false := by simp [hx]
      simp [updateRow, hx, List.find?, hxx, ih]

theorem find?_updateRow_other (cs : List TaskGHConfig) (uid other : Int)
    (f : TaskGHConfig → TaskGHConfig) (hf : ∀ c, (f c).userId = c.userId)
    (h : other ≠ uid) :
    (updateRow cs uid f).find? (fun c => c.userId == other) =
      cs.find? (fun c => c.userId == other) := by
  induction cs with
  | nil => simp [updateRow]
  | cons x rest ih =>
    by_cases hx : x.userId = uid
    · have hfxo : ((f x).userId == other) = false := by simp [hf x, hx, Ne.symm h]
      have hxo : (x.userId == other) = false := by simp [hx, Ne.symm h]
      have huo : ((uid : Int) == other) = false := by simp [Ne.symm h]
      simp [updateRow, hx, List.find?, hfxo, hxo, huo]
    · by_cases hxo : x.userId = other
      · have hxo' : (x.userId == other) = true := by simp [hxo]
        simp [updateRow, hx, List.find?, hxo']
      · have hxo' : (x.userId == other) = false := by simp [hxo]
        simp [updateRow, hx, List.find?, hxo', ih]

theorem lookupTaskConfig_eq_find (t : TaskState) (uid : Int) :
    lookupTaskConfig t (some uid) = t.core.configs.find? (fun c => c.userId == uid) := rfl

theorem lookup_setGithubAttr_self (t : TaskState) (uid : Int)
    (f : TaskGHConfig → TaskGHConfig) (hf : ∀ c, (f c).userId = c.userId) :
    lookupTaskConfig (setGithubAttr t uid f) (some uid) =
      some (f ((lookupTaskConfig t (some uid)).getD (blankTaskConfig uid))) := by
  rw [lookupTaskConfig_eq_find]
  show (updateRow (ensureRow t.core.configs uid) uid f).find? (fun c => c.userId == uid) = _
  rw [find?_updateRow_self _ _ _ hf, find?_ensureRow_self]
  rfl

theorem lookup_setGithubAttr_of_some (t : TaskState) (uid : Int)
    (f : TaskGHConfig → TaskGHConfig) (c : TaskGHConfig)
    (hf : ∀ x, (f x).userId = x.userId)
    (hc : lookupTaskConfig t (some uid) = some c) :
    lookupTaskConfig (setGithubAttr t uid f) (some uid) = some (f c) := by
  rw [lookup_setGithubAttr_self t uid f hf, hc]
  rfl

theorem lookup_setGithubAttr_other (t : TaskState) (uid other : Int)
    (f : TaskGHConfig → TaskGHConfig) (hf : ∀ x, (f x).userId = x.userId)
    (h : other ≠ uid) :
    lookupTaskConfig (setGithubAttr t uid f) (some other) =
      lookupTaskConfig t (some other) := by
  rw [lookupTaskConfig_eq_find, lookupTaskConfig_eq_find]
  show (updateRow (ensureRow t.core.configs uid) uid f).find? (fun c => c.userId == other) = _
  rw [find?_updateRow_other _ _ _ _ hf h, find?_ensureRow_other _ _ _ h]

theorem setGithubAttr_core_fields (t : TaskState) (uid : Int)
    (f : TaskGHConfig → TaskGHConfig) :
    (setGithubAttr t uid f).core.name = t.core.name ∧
    (setGithubAttr t uid f).core.description = t.core.description ∧
    (setGithubAttr t uid f).core.ownerId = t.core.ownerId ∧
    (setGithubAttr t uid f).core.completed = t.core.completed ∧
    (setGithubAttr t uid f).core.completedDate = t.core.completedDate ∧
    (setGithubAttr t uid f).core.tags = t.core.tags ∧
    (setGithubAttr t uid f).subtasks = t.subtasks :=
  ⟨rfl, rfl, rfl, rfl, rfl, rfl, rfl⟩

theorem completeTask_core (now : String) (t : TaskState) :
    (completeTask now t).core =
      { t.core with completed := true, completedDate := some now } := by
  cases t with
  | mk core subtasks => rfl

theorem uncompleteTask_core (t : TaskState) :
    (uncompleteTask t).core = { t.core with completed := false, completedDate := none } := by
  cases t with
  | mk core subtasks => rfl

theorem lookup_completeTask (now : String) (t : TaskState) (b : Option Int) :
    lookupTaskConfig (completeTask now t) b = lookupTaskConfig t b := by
  cases t with
  | mk core subtasks => cases b <;> rfl

theorem lookup_uncompleteTask (t : TaskState) (b : Option Int) :
    lookupTaskConfig (uncompleteTask t) b = lookupTaskConfig t b := by
  cases t with
  | mk core subtasks => cases b <;> rfl

theorem lookup_withCore (t : TaskState) (core' : TaskCore) (b : Int) :
    lookupTaskConfig (t.withCore core') (some b) =
      core'.configs.find? (fun c => c.userId == b) := rfl

/-! # Helper lemmas about the orchestrator helpers -/

/-- `lowerStr` fixes the hidden tag name. -/
theorem lowerStr_localTag : lowerStr LOCAL_GITHUB_TAG_NAME = LOCAL_GITHUB_TAG_NAME := by decide

theorem removeFirstGithubTag_not_mem (tags : List String)
    (hnodup : tags.Nodup)
    (hsane : ∀ s ∈ tags, lowerStr s = LOCAL_GITHUB_TAG_NAME → s = LOCAL_GITHUB_TAG_NAME) :
    LOCAL_GITHUB_TAG_NAME ∉ removeFirstGithubTag tags := by
  induction tags with
  | nil => simp [removeFirstGithubTag]
  | cons tag rest ih =>
    rw [List.nodup_cons] at hnodup
    by_cases h : lowerStr tag = LOCAL_GITHUB_TAG_NAME
    · have htag : tag = LOCAL_GITHUB_TAG_NAME := hsane tag (by simp) h
      rw [removeFirstGithubTag, if_pos h, ← htag]
      exact hnodup.1
    · rw [removeFirstGithubTag, if_neg h]
      intro hmem
      rcases List.mem_cons.mp hmem with heq | hmem'
      · exact h (heq ▸ lowerStr_localTag)
      · exact ih hnodup.2 (fun s hs => hsane s (List.mem_cons_of_mem _ hs)) hmem'

theorem lookup_removeLocalGithubTag (t : TaskState) (b : Option Int) :
    lookupTaskConfig (removeLocalGithubTag t) b = lookupTaskConfig t b := by
  cases t with
  | mk core subtasks => cases b <;> rfl

/-- The acting user's row after `_clear_github_issue_link` is entirely
nulled, other users' rows are untouched, the hidden tag is removed and the
other task fields are unchanged. -/
theorem clearGithubIssueLink_spec (uid : Int) (t : TaskState) :
    lookupTaskConfig (clearGithubIssueLink uid t) (some uid) = some (blankTaskConfig uid) ∧
    (∀ b, b ≠ uid → lookupTaskConfig (clearGithubIssueLink uid t) (some b) =
      lookupTaskConfig t (some b)) ∧
    (clearGithubIssueLink uid t).core.tags = removeFirstGithubTag t.core.tags ∧
    (clearGithubIssueLink uid t).core.name = t.core.name ∧
    (clearGithubIssueLink uid t).core.completed = t.core.completed ∧
    (clearGithubIssueLink uid t).core.completedDate = t.core.completedDate ∧
    (clearGithubIssueLink uid t).core.ownerId = t.core.ownerId := by
  refine ⟨?_, ?_, rfl, rfl, rfl, rfl, rfl⟩
  · unfold clearGithubIssueLink
    rw [lookup_removeLocalGithubTag, lookup_setGithubAttr_self t uid clearIssueFields (fun _ => rfl)]
    cases hl : lookupTaskConfig t (some uid) with
    | some c =>
      have hcid : c.userId = uid := lookupTaskConfig_userId hl
      simp only [Option.getD_some]
      cases c with
      | mk userId i2 i3 i4 i5 i6 i7 i8 i9 i10 i11 i12 i13 i14 =>
        simp only at hcid
        subst hcid
        rfl
    | none => rfl
  · intro b hb
    unfold clearGithubIssueLink
    rw [lookup_removeLocalGithubTag, lookup_setGithubAttr_other t uid b clearIssueFields (fun _ => rfl) hb]

/-! # Claim theorems -/


/-! ## C8 — `_ensure_label` is an idempotent upsert -/

/-- **C8.** For every label name, `_ensure_label` is an idempotent upsert:
it GETs the label, creates it only on a 404, tolerates a create-time 422,
and calling it twice never raises and leaves exactly one remote label of
that name; moreover when the GET succeeds no write happens at all. -/
theorem c8_ensure_label_idempotent (world : List String) (label : String)
    (h : world.count label ≤ 1) :
    ∃ w₁ w₂, ensure_label world label = .ok w₁ ∧ ensure_label w₁ label = .ok w₂ ∧
      w₂.count label = 1 ∧ (label ∈ world → w₁ = world) := by
  by_cases hmem : label ∈ world
  · refine ⟨world, world, ?_, ?_, ?_, fun _ => rfl⟩
    · simp [ensure_label, labelGetStatus, hmem]
    · simp [ensure_label, labelGetStatus, hmem]
    · have h1 : 0 < world.count label := List.count_pos_iff.mpr hmem
      omega
  · refine ⟨world ++ [label], world ++ [label], ?_, ?_, ?_, fun hc => absurd hc hmem⟩
    · simp [ensure_label, labelGetStatus, labelCreate, hmem]
    · simp [ensure_label, labelGetStatus, labelCreate, hmem]
    · have h0 : world.count label = 0 := List.count_eq_zero_of_not_mem hmem
      simp [List.count_append, h0]

/-- Witness for C8 at the empty label store and the label `"bug"`. -/
theorem c8_ensure_label_idempotent_witness :
    ([] : List String).count "bug" ≤ 1 ∧
    ∃ w₁ w₂, ensure_label [] "bug" = .ok w₁ ∧ ensure_label w₁ "bug" = .ok w₂ ∧
      w₂.count "bug" = 1 ∧ ("bug" ∈ ([] : List String) → w₁ = []) :=
  ⟨by decide, c8_ensure_label_idempotent [] "bug" (by decide)⟩

/-! ## C9 — error taxonomy and pagination of the list endpoints -/

/-- **C9, counterexample.** `list_repositories` does not stop at the first
short page (it keeps requesting until an *empty* page, so it returns the
second page's repository as well, where the claim's description returns only
the first), and on a 403 it raises the generic list error rather than the
Unauthorized error the claim describes. -/
theorem c9_counterexample :
    list_repositories cexRepoPages 10 =
      .ok [⟨1, "alpha", "octo"⟩, ⟨2, "beta", "octo"⟩] ∧
    specListRepositories cexRepoPages 10 = .ok [⟨1, "alpha", "octo"⟩] ∧
    (GitHubRepository.mk 2 "beta" "octo") ∉ [GitHubRepository.mk 1 "alpha" "octo"] ∧
    list_repositories (fun _ => (403, [])) 10 =
      .error ⟨"Unable to list repositories", some 403⟩ ∧
    specListRepositories (fun _ => (403, [])) 10 = .error ⟨"Unauthorized", some 403⟩ ∧
    ("Unable to list repositories" : String) ≠ "Unauthorized" := by
  refine ⟨rfl, rfl, by decide, rfl, rfl, by decide⟩

/-- **C9, amended.** `listProjects` (classic) and `listMilestones` raise
Unauthorized on 401/403, NotFound on 404, for projects a distinct
feature-unavailable error on 410, and paginate until a short page;
`listRepositories` raises Unauthorized on 401 only (any other failing
status, 403 included, raises the generic list error) and paginates until an
*empty* page is returned. -/
theorem c9_amended_list_endpoints :
    (∀ (pages : PageWorld RepoPayloadItem) (fuel : Nat) (p : List RepoPayloadItem),
        pages 1 = (401, p) →
          list_repositories pages (fuel + 1) = .error ⟨"Unauthorized", some 401⟩) ∧
    (∀ (pages : PageWorld RepoPayloadItem) (fuel : Nat) (p : List RepoPayloadItem),
        pages 1 = (403, p) →
          list_repositories pages (fuel + 1) =
            .error ⟨"Unable to list repositories", some 403⟩) ∧
    (∀ (pages : PageWorld RepoPayloadItem) (fuel : Nat) (p₁ : List RepoPayloadItem),
        pages 1 = (200, p₁) → pages 2 = (200, []) →
          list_repositories pages (fuel + 2) = .ok (collectRepos p₁)) ∧
    (∀ (pages : PageWorld ProjectPayloadItem) (fuel : Nat) (status : Int)
        (p : List ProjectPayloadItem),
        pages 1 = (status, p) → status = 401 ∨ status = 403 →
          list_classic_repository_projects pages (fuel + 1) =
            .error ⟨"Unauthorized", some status⟩) ∧
    (∀ (pages : PageWorld ProjectPayloadItem) (fuel : Nat) (p : List ProjectPayloadItem),
        pages 1 = (404, p) →
          list_classic_repository_projects pages (fuel + 1) =
            .error ⟨"Repository not found", some 404⟩) ∧
    (∀ (pages : PageWorld ProjectPayloadItem) (fuel : Nat) (p : List ProjectPayloadItem),
        pages 1 = (410, p) →
          list_classic_repository_projects pages (fuel + 1) =
            .error ⟨"GitHub repository projects are not available for this repository.", some 410⟩) ∧
    ((⟨"GitHub repository projects are not available for this repository.", some 410⟩ :
        GitHubError) ≠ ⟨"Repository not found", some 404⟩) ∧
    (∀ (pages : PageWorld ProjectPayloadItem) (fuel : Nat) (p₁ : List ProjectPayloadItem),
        pages 1 = (200, p₁) → p₁ ≠ [] → p₁.length < 100 →
          list_classic_repository_projects pages (fuel + 1) = .ok (collectProjects p₁)) ∧
    (∀ (pages : PageWorld MilestonePayloadItem) (fuel : Nat) (status : Int)
        (p : List MilestonePayloadItem),
        pages 1 = (status, p) → status = 401 ∨ status = 403 →
          list_repository_milestones pages (fuel + 1) = .error ⟨"Unauthorized", some status⟩) ∧
    (∀ (pages : PageWorld MilestonePayloadItem) (fuel : Nat) (p : List MilestonePayloadItem),
        pages 1 = (404, p) →
          list_repository_milestones pages (fuel + 1) =
            .error ⟨"Repository not found", some 404⟩) ∧
    (∀ (pages : PageWorld MilestonePayloadItem) (fuel : Nat) (p₁ : List MilestonePayloadItem),
        pages 1 = (200, p₁) → p₁ ≠ [] → p₁.length < 100 →
          list_repository_milestones pages (fuel + 1) = .ok (collectMilestones p₁)) := by
  refine ⟨?_, ?_, ?_, ?_, ?_, ?_, by decide, ?_, ?_, ?_, ?_⟩
  · intro pages fuel p h
    simp [list_repositories, listRepositoriesAux, h]
  · intro pages fuel p h
    simp [list_repositories, listRepositoriesAux, h]
  · intro pages fuel p₁ h1 h2
    by_cases hp : p₁ = []
    · subst hp
      simp [list_repositories, listRepositoriesAux, h1, collectRepos]
    · simp [list_repositories, listRepositoriesAux, h1, h2, hp, collectRepos]
  · intro pages fuel status p h hs
    rcases hs with hs | hs <;> subst hs <;>
      simp [list_classic_repository_projects, listClassicRepositoryProjectsAux, h]
  · intro pages fuel p h
    simp [list_classic_repository_projects, listClassicRepositoryProjectsAux, h]
  · intro pages fuel p h
    simp [list_classic_repository_projects, listClassicRepositoryProjectsAux, h]
  · intro pages fuel p₁ h1 hne hlen
    simp [list_classic_repository_projects, listClassicRepositoryProjectsAux, h1, hne, hlen]
  · intro pages fuel status p h hs
    rcases hs with hs | hs <;> subst hs <;>
      simp [list_repository_milestones, listRepositoryMilestonesAux, h]
  · intro pages fuel p h
    simp [list_repository_milestones, listRepositoryMilestonesAux, h]
  · intro pages fuel p₁ h1 hne hlen
    simp [list_repository_milestones, listRepositoryMilestonesAux, h1, hne, hlen]

/-- Witness for C9's amended statement, instantiating each clause at a
concrete page world. -/
theorem c9_amended_list_endpoints_witness :
    list_repositories (fun _ => (401, [])) 1 = .error ⟨"Unauthorized", some 401⟩ ∧
    list_repositories (fun _ => (403, [])) 1 =
      .error ⟨"Unable to list repositories", some 403⟩ ∧
    list_repositories shortRepoPages 3 = .ok (collectRepos [⟨some "octo", 1, "alpha"⟩]) ∧
    list_classic_repository_projects (fun _ => (403, [])) 1 =
      .error ⟨"Unauthorized", some 403⟩ ∧
    list_classic_repository_projects (fun _ => (404, [])) 1 =
      .error ⟨"Repository not found", some 404⟩ ∧
    list_classic_repository_projects (fun _ => (410, [])) 1 =
      .error ⟨"GitHub repository projects are not available for this repository.", some 410⟩ ∧
    list_classic_repository_projects (fun _ => (200, [⟨some 7, some "Board", none⟩])) 1 =
      .ok (collectProjects [⟨some 7, some "Board", none⟩]) ∧
    list_repository_milestones (fun _ => (401, [])) 1 = .error ⟨"Unauthorized", some 401⟩ ∧
    list_repository_milestones (fun _ => (404, [])) 1 =
      .error ⟨"Repository not found", some 404⟩ ∧
    list_repository_milestones (fun _ => (200, [⟨some 5, some "v1", some "open", none⟩])) 1 =
      .ok (collectMilestones [⟨some 5, some "v1", some "open", none⟩]) := by
  have h := c9_amended_list_endpoints
  have hcex1 : shortRepoPages 1 = (200, [⟨some "octo", 1, "alpha"⟩]) := rfl
  have hcex2 : shortRepoPages 2 = (200, []) := rfl
  exact ⟨h.1 _ 0 [] rfl,
    h.2.1 _ 0 [] rfl,
    h.2.2.1 _ 1 _ hcex1 hcex2,
    h.2.2.2.1 _ 0 403 [] rfl (Or.inr rfl),
    h.2.2.2.2.1 _ 0 [] rfl,
    h.2.2.2.2.2.1 _ 0 [] rfl,
    h.2.2.2.2.2.2.2.1 _ 0 _ rfl (by decide) (by decide),
    h.2.2.2.2.2.2.2.2.1 _ 0 401 [] rfl (Or.inl rfl),
    h.2.2.2.2.2.2.2.2.2.1 _ 0 [] rfl,
    h.2.2.2.2.2.2.2.2.2.2 _ 0 _ rfl (by decide) (by decide)⟩

/-! ## C10 — a linked config with a null stored state counts as open -/

/-- **C10.** A `TaskGitHubConfig` that has an issue link but a `None`
stored issue state reports `issue_is_open() == true`, so deleting a task
resolved to such a config is refused with no deletion. -/
theorem c10_null_state_counts_as_open (t : TaskState) (actor : Int) (c : TaskGHConfig)
    (user : UserState) (ctx : Option GitHubCtx)
    (removeLabelOut : Except GitHubError (List String))
    (hres : getTaskGithubConfig t (some actor) = some c)
    (hid : truthyInt c.githubIssueId = true)
    (hnum : truthyInt c.githubIssueNumber = true)
    (hstate : c.githubIssueState = none) :
    issueIsOpen c = true ∧
    delete_item_task actor true ctx user removeLabelOut t =
      (user, ⟨false, 400, "Task cannot be deleted until its linked GitHub issue is closed.", false⟩) := by
  have hopen : issueIsOpen c = true := by
    simp [issueIsOpen, hasIssueLink, hid, hnum, hstate]
  refine ⟨hopen, ?_⟩
  have htask : taskGithubIssueIsOpen t actor = true := by
    simp [taskGithubIssueIsOpen, hres, hopen]
  simp [delete_item_task, htask]

/-- Witness for C10 at a concrete linked task with a null stored state. -/
theorem c10_null_state_counts_as_open_witness :
    (getTaskGithubConfig nullStateLinkedTask (some 1) = some nullStateLinkedConfig ∧
      truthyInt nullStateLinkedConfig.githubIssueId = true ∧
      truthyInt nullStateLinkedConfig.githubIssueNumber = true ∧
      nullStateLinkedConfig.githubIssueState = none) ∧
    issueIsOpen nullStateLinkedConfig = true ∧
    delete_item_task 1 true none ⟨true, some "tok"⟩ (.ok []) nullStateLinkedTask =
      (⟨true, some "tok"⟩,
        ⟨false, 400, "Task cannot be deleted until its linked GitHub issue is closed.", false⟩) :=
  ⟨⟨rfl, by decide, by decide, rfl⟩,
    c10_null_state_counts_as_open nullStateLinkedTask 1 nullStateLinkedConfig
      ⟨true, some "tok"⟩ none (.ok []) rfl (by decide) (by decide) rfl⟩

/-! ## C5 — the deletion guard -/

/-- **C5, counterexample.** Deleting a closed-and-linked task when the
remote label removal fails with a *non-Missing* error (here 500) does not
delete the task: the handler returns the communication error and performs
no deletion, where the claim says a label-removal failure never blocks the
deletion. -/
theorem c5_counterexample :
    delete_item_task 1 true (some sampleCtx) ⟨true, some "tok"⟩
        (.error ⟨"Unable to remove label", some 500⟩) closedLinkedTask =
      (⟨true, some "tok"⟩,
        ⟨false, 500, "An error occurred while communicating with GitHub.", false⟩) ∧
    (delete_item_task 1 true (some sampleCtx) ⟨true, some "tok"⟩
        (.error ⟨"Unable to remove label", some 500⟩) closedLinkedTask).2.deleted = false := by
  exact ⟨by decide, by decide⟩

/-- **C5, amended.** Deleting a task whose linked issue is open is refused
and performs no deletion; on a closed-and-linked task the handler attempts
the remote label removal, and only a Missing (404/410) failure of that call
is tolerated (the deletion still happens) — any other failure aborts the
deletion and returns the error to the caller. -/
theorem c5_amended_deletion_guard (actor : Int) (ctx : GitHubCtx) (user : UserState)
    (t : TaskState) (removeLabelOut : Except GitHubError (List String)) :
    (taskGithubIssueIsOpen t actor = true →
      delete_item_task actor true (some ctx) user removeLabelOut t =
        (user, ⟨false, 400, "Task cannot be deleted until its linked GitHub issue is closed.", false⟩)) ∧
    (taskGithubIssueIsOpen t actor = false →
      truthyInt (taskGithubIssueNumber t actor) = true →
      (∀ labels, removeLabelOut = .ok labels →
        (delete_item_task actor true (some ctx) user removeLabelOut t).2.deleted = true) ∧
      (∀ e, removeLabelOut = .error e → isMissingStatus e.statusCode = true →
        (delete_item_task actor true (some ctx) user removeLabelOut t).2.deleted = true) ∧
      (∀ e, removeLabelOut = .error e → isMissingStatus e.statusCode = false →
        (delete_item_task actor true (some ctx) user removeLabelOut t).2.deleted = false ∧
        (delete_item_task actor true (some ctx) user removeLabelOut t).2.success = false)) := by
  constructor
  · intro hopen
    simp [delete_item_task, hopen]
  · intro hclosed hnum
    refine ⟨?_, ?_, ?_⟩
    · intro labels hout
      subst hout
      simp [delete_item_task, hclosed, hnum]
    · intro e hout hmiss
      subst hout
      simp [delete_item_task, hclosed, hnum, hmiss]
    · intro e hout hmiss
      subst hout
      constructor <;> simp [delete_item_task, hclosed, hnum, hmiss]

/-- Witness for C5's amended statement at the concrete closed linked task
(Missing failure tolerated) and the open variant (deletion refused). -/
theorem c5_amended_deletion_guard_witness :
    (taskGithubIssueIsOpen closedLinkedTask 1 = false →
      truthyInt (taskGithubIssueNumber closedLinkedTask 1) = true →
      (∀ labels, (.error ⟨"gone", some 404⟩ : Except GitHubError (List String)) = .ok labels →
        (delete_item_task 1 true (some sampleCtx) ⟨true, some "tok"⟩
          (.error ⟨"gone", some 404⟩) closedLinkedTask).2.deleted = true) ∧
      (∀ e, (.error ⟨"gone", some 404⟩ : Except GitHubError (List String)) = .error e →
        isMissingStatus e.statusCode = true →
        (delete_item_task 1 true (some sampleCtx) ⟨true, some "tok"⟩
          (.error ⟨"gone", some 404⟩) closedLinkedTask).2.deleted = true) ∧
      (∀ e, (.error ⟨"gone", some 404⟩ : Except GitHubError (List String)) = .error e →
        isMissingStatus e.statusCode = false →
        (delete_item_task 1 true (some sampleCtx) ⟨true, some "tok"⟩
          (.error ⟨"gone", some 404⟩) closedLinkedTask).2.deleted = false ∧
        (delete_item_task 1 true (some sampleCtx) ⟨true, some "tok"⟩
          (.error ⟨"gone", some 404⟩) closedLinkedTask).2.success = false)) ∧
    (taskGithubIssueIsOpen nullStateLinkedTask 1 = true →
      delete_item_task 1 true (some sampleCtx) ⟨true, some "tok"⟩ (.ok [])
          nullStateLinkedTask =
        (⟨true, some "tok"⟩,
          ⟨false, 400, "Task cannot be deleted until its linked GitHub issue is closed.", false⟩)) :=
  ⟨(c5_amended_deletion_guard 1 sampleCtx ⟨true, some "tok"⟩ closedLinkedTask
      (.error ⟨"gone", some 404⟩)).2,
    (c5_amended_deletion_guard 1 sampleCtx ⟨true, some "tok"⟩ nullStateLinkedTask (.ok [])).1⟩

/-! ## C4 — `compute_scope_github_state` linking -/

/-- `is_linked_to` written as a conjunction of its four gates, for configs
of distinct users. -/
theorem isLinkedTo_characterization (uc oc : ScopeGitHubConfig) (h : oc.userId ≠ uc.userId) :
    isLinkedTo uc (some oc) =
      (!uc.isDetached && uc.isSharedRepo && sourceUserOk uc oc &&
        sharesRepositoryWith uc (some oc)) := by
  unfold isLinkedTo sourceUserOk
  by_cases hdet : uc.isDetached = true
  · simp [h, hdet]
  · by_cases hsh : uc.isSharedRepo = true
    · by_cases hsrc : truthyInt uc.sourceUserId ∧ uc.sourceUserId ≠ some oc.userId
      · simp [h, hdet, hsh, hsrc]
      · simp [h, hdet, hsh, hsrc]
    · simp [h, hdet, hsh, Bool.not_eq_true _ ▸ hsh]

/-- **C4, counterexample.** A collaborator config that is not detached, is
flagged shared and references the owner's repository (same numeric id and
same owner/name), but whose `source_user_id` names a third user: the claim's
condition holds, yet `compute_scope_github_state` reports
`linkedToOwner = false` because `is_linked_to` additionally requires a
truthy `source_user_id` to equal the owner's user id. -/
theorem c4_counterexample :
    specLinkedToOwner c4CollabConfig c4OwnerConfig = true ∧
    lookupScopeConfig c4Scope (some 2) = some c4CollabConfig ∧
    getScopeOwnerGithubConfig c4Scope = some c4OwnerConfig ∧
    (compute_scope_github_state (some c4Scope) (some 2)).linkedToOwner = false := by
  refine ⟨by decide, by decide, by decide, by decide⟩

/-- **C4, amended.** For a non-owner user with a config row,
`compute_scope_github_state` reports `linkedToOwner` true exactly when the
collaborator's config is not detached, is flagged shared, its
`source_user_id` (when truthy) equals the owner's user id, and its
repository identity matches the owner's (numeric id equality when both ids
are truthy, else case-insensitive owner+name equality, both configs naming
a repository); when linked the effective config is the owner's row, and
when the repository identities differ `linkedToOwner` is false and the
effective config is the collaborator's own row. -/
theorem c4_amended_compute_state (scope : ScopeState) (uid : Int)
    (uc oc : ScopeGitHubConfig)
    (hne : scope.ownerId ≠ uid)
    (huc : lookupScopeConfig scope (some uid) = some uc)
    (hoc : getScopeOwnerGithubConfig scope = some oc) :
    ((compute_scope_github_state (some scope) (some uid)).linkedToOwner =
      (!uc.isDetached && uc.isSharedRepo && sourceUserOk uc oc &&
        sharesRepositoryWith uc (some oc))) ∧
    ((compute_scope_github_state (some scope) (some uid)).linkedToOwner = true →
      (compute_scope_github_state (some scope) (some uid)).effectiveConfig = some oc) ∧
    (sharesRepositoryWith uc (some oc) = false →
      (compute_scope_github_state (some scope) (some uid)).linkedToOwner = false ∧
      (compute_scope_github_state (some scope) (some uid)).effectiveConfig = some uc) := by
  have hucid : uc.userId = uid := by
    have := List.find?_some (by simpa [lookupScopeConfig] using huc)
    simpa using this
  have hocid : oc.userId = scope.ownerId := by
    have := List.find?_some (by simpa [getScopeOwnerGithubConfig, lookupScopeConfig] using hoc)
    simpa using this
  have husers : uc.userId ≠ oc.userId := by
    rw [hucid, hocid]
    exact fun hcontra => hne hcontra.symm
  have hchar := isLinkedTo_characterization uc oc (fun hcontra => husers hcontra.symm)
  have hstate : compute_scope_github_state (some scope) (some uid) =
      (if isLinkedTo uc (some oc) then ⟨some uc, some oc, some oc, true, uc.isDetached⟩
       else ⟨some uc, some oc, some uc, false, uc.isDetached⟩) := by
    simp only [compute_scope_github_state, hoc, huc, if_neg hne, husers, ite_not]
    split <;> simp_all
  by_cases hlink : isLinkedTo uc (some oc) = true
  · rw [hlink] at hchar
    refine ⟨?_, ?_, ?_⟩
    · rw [hstate]
      simp [hlink, ← hchar]
    · intro _
      rw [hstate]
      simp [hlink]
    · intro hsh
      rw [hsh] at hchar
      simp at hchar
  · have hlink' : isLinkedTo uc (some oc) = false := by
      simpa using hlink
    rw [hlink'] at hchar
    refine ⟨?_, ?_, ?_⟩
    · rw [hstate]
      simp [hlink', ← hchar]
    · intro hcontra
      rw [hstate] at hcontra
      simp [hlink'] at hcontra
    · intro _
      rw [hstate]
      simp [hlink']

/-- Witness for C4's amended statement at the properly-linked scope. -/
theorem c4_amended_compute_state_witness :
    ((compute_scope_github_state (some c4LinkedScope) (some 2)).linkedToOwner =
      (!c4LinkedCollabConfig.isDetached && c4LinkedCollabConfig.isSharedRepo &&
        sourceUserOk c4LinkedCollabConfig c4OwnerConfig &&
        sharesRepositoryWith c4LinkedCollabConfig (some c4OwnerConfig))) ∧
    ((compute_scope_github_state (some c4LinkedScope) (some 2)).linkedToOwner = true →
      (compute_scope_github_state (some c4LinkedScope) (some 2)).effectiveConfig =
        some c4OwnerConfig) ∧
    (sharesRepositoryWith c4LinkedCollabConfig (some c4OwnerConfig) = false →
      (compute_scope_github_state (some c4LinkedScope) (some 2)).linkedToOwner = false ∧
      (compute_scope_github_state (some c4LinkedScope) (some 2)).effectiveConfig =
        some c4LinkedCollabConfig) :=
  c4_amended_compute_state c4LinkedScope 2 c4LinkedCollabConfig c4OwnerConfig
    (by decide) (by decide) (by decide)

/-! ## C7 — detach then propagate restores the linked state -/

/-- From a true `shares_repository_with` both owner-side repository strings
are truthy. -/
theorem sharesRepositoryWith_owner_truthy (c oc : ScopeGitHubConfig)
    (h : sharesRepositoryWith c (some oc) = true) :
    truthyStr oc.githubRepoOwner = true ∧ truthyStr oc.githubRepoName = true := by
  unfold sharesRepositoryWith at h
  by_cases h2 : truthyStr oc.githubRepoOwner ∧ truthyStr oc.githubRepoName
  · exact ⟨h2.1, h2.2⟩
  · by_cases h1 : truthyStr c.githubRepoOwner ∧ truthyStr c.githubRepoName <;>
      simp [h1, h2] at h

/-- A config whose repository identity fields equal the owner's shares the
owner's repository (provided the owner names one). -/
theorem sharesRepositoryWith_of_cloned (c oc : ScopeGitHubConfig)
    (hid : c.githubRepoId = oc.githubRepoId)
    (hown : c.githubRepoOwner = oc.githubRepoOwner)
    (hname : c.githubRepoName = oc.githubRepoName)
    (htro : truthyStr oc.githubRepoOwner = true)
    (htrn : truthyStr oc.githubRepoName = true) :
    sharesRepositoryWith c (some oc) = true := by
  unfold sharesRepositoryWith
  rw [hid, hown, hname]
  by_cases hidt : truthyInt oc.githubRepoId = true <;> simp [htro, htrn, hidt]

/-- **C7.** For a scope with an owner config and a collaborator config
sharing the owner's repository, `detach_shared_repository_configs` followed
by `propagate_owner_github_configuration` with the owner's repository
unchanged restores the collaborator's row to `is_shared_repo = true`,
`is_detached = false` (with `source_user_id` naming the owner). -/
theorem c7_detach_then_propagate_relinks (scope : ScopeState) (oc c : ScopeGitHubConfig)
    (hmem : c ∈ scope.githubConfigs) (hne : c.userId ≠ oc.userId)
    (hshare : sharesRepositoryWith c (some oc) = true) :
    ∃ c', c' ∈ (propagate_owner_github_configuration
        (detach_shared_repository_configs scope oc) oc).githubConfigs ∧
      c'.userId = c.userId ∧ c'.isSharedRepo = true ∧ c'.isDetached = false ∧
      c'.sourceUserId = some oc.userId := by
  obtain ⟨htro, htrn⟩ := sharesRepositoryWith_owner_truthy c oc hshare
  have hdspec : detachConfigStep oc (snapshotRepositoryConfiguration oc) c =
      applyRepositorySnapshot (markAsDetachedFrom c oc) (snapshotRepositoryConfiguration oc) := by
    simp [detachConfigStep, hne, hshare]
  have hduser : (detachConfigStep oc (snapshotRepositoryConfiguration oc) c).userId = c.userId := by
    simp [hdspec, applyRepositorySnapshot, markAsDetachedFrom]
  have hdshare : sharesRepositoryWith
      (detachConfigStep oc (snapshotRepositoryConfiguration oc) c) (some oc) = true := by
    rw [hdspec]
    apply sharesRepositoryWith_of_cloned <;>
      simp [applyRepositorySnapshot, markAsDetachedFrom,
        snapshotRepositoryConfiguration, htro, htrn]
  have hduser' : (detachConfigStep oc (snapshotRepositoryConfiguration oc) c).userId ≠ oc.userId := by
    rw [hduser]; exact hne
  refine ⟨propagateConfigStep oc true (detachConfigStep oc (snapshotRepositoryConfiguration oc) c),
    ?_, ?_, ?_, ?_, ?_⟩
  · simp only [propagate_owner_github_configuration, detach_shared_repository_configs,
      htro, htrn, Bool.and_self, List.map_map, List.mem_map, Function.comp_apply]
    exact ⟨c, hmem, rfl⟩
  all_goals
    simp [propagateConfigStep, hdshare, hduser', hduser, hne, markAsSharedWith,
      cloneRepositoryMetadataFrom, cloneProjectAndLabelFrom, cloneMilestoneFrom]

/-- Witness for C7 at the concrete two-user scope. -/
theorem c7_detach_then_propagate_relinks_witness :
    ∃ c', c' ∈ (propagate_owner_github_configuration
        (detach_shared_repository_configs c7Scope c7OwnerConfig) c7OwnerConfig).githubConfigs ∧
      c'.userId = c7CollabConfig.userId ∧ c'.isSharedRepo = true ∧ c'.isDetached = false ∧
      c'.sourceUserId = some c7OwnerConfig.userId :=
  c7_detach_then_propagate_relinks c7Scope c7OwnerConfig c7CollabConfig
    (by decide) (by decide) (by decide)

/-! ## Lemmas about tag reconciliation and the sync pipeline -/

theorem addMissingTags_toFinset (names : List String) (tags : List String) :
    (addMissingTags tags names).toFinset = tags.toFinset ∪ names.toFinset := by
  induction names generalizing tags with
  | nil => simp [addMissingTags]
  | cons n rest ih =>
    by_cases h : n ∈ tags
    · rw [addMissingTags, if_pos h, ih]
      ext x
      simp only [Finset.mem_union, List.mem_toFinset, List.mem_cons]
      constructor
      · rintro (hx | hx)
        · exact Or.inl hx
        · exact Or.inr (Or.inr hx)
      · rintro (hx | hx | hx)
        · exact Or.inl hx
        · exact Or.inl (hx ▸ h)
        · exact Or.inr hx
    · rw [addMissingTags, if_neg h, ih]
      ext x
      simp only [Finset.mem_union, List.mem_toFinset, List.mem_append,
        List.mem_singleton, List.mem_cons]
      tauto

theorem tagsForLabels_toFinset (env : ScopeEnv) (labels : List String) :
    (tagsForLabels env labels).toFinset = (normalizedLabels labels).toFinset := by
  unfold tagsForLabels
  by_cases h : normalizedLabels labels = []
  · simp [h]
  · rw [if_neg h, addMissingTags_toFinset]
    apply Finset.union_eq_right.mpr
    intro x hx
    simp only [List.mem_toFinset, List.mem_filter] at hx
    simpa using hx.2

theorem lookup_syncNameStep (issue : GitHubIssue) (t : TaskState) (b : Option Int) :
    lookupTaskConfig (syncNameStep issue t) b = lookupTaskConfig t b := by
  cases t with
  | mk core subtasks => cases b <;> rfl

theorem lookup_syncCompletionStep (now : String) (issue : GitHubIssue) (t : TaskState)
    (b : Option Int) :
    lookupTaskConfig (syncCompletionStep now issue t) b = lookupTaskConfig t b := by
  unfold syncCompletionStep
  split
  · split
    · rw [lookup_completeTask]
    · rfl
  · split
    · rw [lookup_uncompleteTask]
    · rfl

theorem lookup_syncProjectStep_of_some (actor : Int) (env : ScopeEnv) (t : TaskState)
    (c : TaskGHConfig) (hc : lookupTaskConfig t (some actor) = some c) :
    ∃ c', lookupTaskConfig (syncProjectStep actor env t) (some actor) = some c' ∧
      c'.githubIssueId = c.githubIssueId ∧ c'.githubIssueNumber = c.githubIssueNumber ∧
      c'.userId = c.userId := by
  unfold syncProjectStep
  split
  · exact ⟨_, lookup_setGithubAttr_of_some t actor _ c (fun _ => rfl) hc, rfl, rfl, rfl⟩
  · exact ⟨c, hc, rfl, rfl, rfl⟩

theorem lookup_syncIdentityStep_of_some (actor : Int) (issue : GitHubIssue) (t : TaskState)
    (c : TaskGHConfig) (hc : lookupTaskConfig t (some actor) = some c) :
    ∃ c', lookupTaskConfig (syncIdentityStep actor issue t) (some actor) = some c' ∧
      c'.githubIssueId = some issue.id ∧ c'.githubIssueNumber = c.githubIssueNumber ∧
      c'.userId = c.userId := by
  unfold syncIdentityStep
  exact ⟨_, lookup_setGithubAttr_of_some t actor _ c (fun _ => rfl) hc, rfl, rfl, rfl⟩

theorem lookup_syncMilestoneStep_of_some (actor : Int) (issue : GitHubIssue) (t : TaskState)
    (c : TaskGHConfig) (hc : lookupTaskConfig t (some actor) = some c) :
    ∃ c', lookupTaskConfig (syncMilestoneStep actor issue t) (some actor) = some c' ∧
      c'.githubIssueId = c.githubIssueId ∧ c'.githubIssueNumber = c.githubIssueNumber ∧
      c'.userId = c.userId := by
  unfold syncMilestoneStep
  exact ⟨_, lookup_setGithubAttr_of_some t actor _ c (fun _ => rfl) hc, rfl, rfl, rfl⟩

/-- The acting user's row through `_sync_task_from_issue` (before the tag
replacement): the issue id is copied, the issue number is untouched. -/
theorem syncSteps_lookup (actor : Int) (now : String) (env : ScopeEnv) (issue : GitHubIssue)
    (t : TaskState) (c : TaskGHConfig)
    (hc : lookupTaskConfig t (some actor) = some c) :
    ∃ c', lookupTaskConfig
        (syncCompletionStep now issue (syncProjectStep actor env
          (syncMilestoneStep actor issue (syncNameStep issue
            (syncIdentityStep actor issue t))))) (some actor) = some c' ∧
      c'.githubIssueId = some issue.id ∧ c'.githubIssueNumber = c.githubIssueNumber ∧
      c'.userId = c.userId := by
  obtain ⟨c₁, h1, hid1, hnum1, huid1⟩ := lookup_syncIdentityStep_of_some actor issue t c hc
  have h2 : lookupTaskConfig (syncNameStep issue (syncIdentityStep actor issue t))
      (some actor) = some c₁ := by
    rw [lookup_syncNameStep]
    exact h1
  obtain ⟨c₂, h3, hid2, hnum2, huid2⟩ := lookup_syncMilestoneStep_of_some actor issue _ c₁ h2
  obtain ⟨c₃, h4, hid3, hnum3, huid3⟩ := lookup_syncProjectStep_of_some actor env _ c₂ h3
  refine ⟨c₃, ?_, ?_, ?_, ?_⟩
  · rw [lookup_syncCompletionStep]
    exact h4
  · rw [hid3, hid2, hid1]
  · rw [hnum3, hnum2, hnum1]
  · rw [huid3, huid2, huid1]

theorem getTaskGithubConfig_of_lookup (t : TaskState) (actor : Int) (c : TaskGHConfig)
    (hc : lookupTaskConfig t (some actor) = some c) :
    getTaskGithubConfig t (some actor) = some c := by
  simp [getTaskGithubConfig, hc]

theorem taskGithubIssueNumber_of_lookup (t : TaskState) (actor : Int) (c : TaskGHConfig)
    (hc : lookupTaskConfig t (some actor) = some c) :
    taskGithubIssueNumber t actor = c.githubIssueNumber := by
  simp [taskGithubIssueNumber, getGithubAttr, getTaskGithubConfig_of_lookup t actor c hc]

theorem ensureLocalGithubTag_tags_of_linked (actor : Int) (t : TaskState) (c : TaskGHConfig)
    (hc : lookupTaskConfig t (some actor) = some c)
    (hnum : truthyInt c.githubIssueNumber = true) :
    (ensureLocalGithubTag actor t).core.tags.toFinset =
      t.core.tags.toFinset ∪ {LOCAL_GITHUB_TAG_NAME} := by
  unfold ensureLocalGithubTag
  rw [taskGithubIssueNumber_of_lookup t actor c hc, hnum]
  rw [if_neg (by simp)]
  by_cases hmem : LOCAL_GITHUB_TAG_NAME ∈ t.core.tags
  · rw [if_pos hmem]
    ext x
    simp only [Finset.mem_union, List.mem_toFinset, Finset.mem_singleton]
    constructor
    · exact Or.inl
    · rintro (hx | hx)
      · exact hx
      · exact hx ▸ hmem
  · rw [if_neg hmem]
    have htags : (t.withCore { t.core with
        tags := t.core.tags ++ [LOCAL_GITHUB_TAG_NAME] }).core.tags =
        t.core.tags ++ [LOCAL_GITHUB_TAG_NAME] := rfl
    rw [htags]
    ext x
    simp only [List.mem_toFinset, List.mem_append, List.mem_singleton, Finset.mem_union,
      Finset.mem_singleton]

/-- The tag set after `_sync_task_from_issue` for a linked acting user:
exactly the tags derived from the labels plus the hidden tag. -/
theorem syncTaskFromIssue_tags (actor : Int) (now : String) (env : ScopeEnv)
    (issue : GitHubIssue) (t : TaskState) (c : TaskGHConfig)
    (hc : lookupTaskConfig t (some actor) = some c)
    (hnum : truthyInt c.githubIssueNumber = true) :
    (syncTaskFromIssue actor now env issue t).core.tags.toFinset =
      (normalizedLabels issue.labels).toFinset ∪ {LOCAL_GITHUB_TAG_NAME} := by
  obtain ⟨c', hc', _, hnum', _⟩ := syncSteps_lookup actor now env issue t c hc
  unfold syncTaskFromIssue
  set u := syncCompletionStep now issue (syncProjectStep actor env
    (syncMilestoneStep actor issue (syncNameStep issue (syncIdentityStep actor issue t))))
  have hcu : lookupTaskConfig
      (u.withCore { u.core with tags := tagsForLabels env issue.labels }) (some actor) =
      some c' := by
    rw [lookup_withCore]
    exact hc'
  rw [ensureLocalGithubTag_tags_of_linked actor _ c' hcu (by rw [hnum']; exact hnum)]
  have : (u.withCore { u.core with tags := tagsForLabels env issue.labels }).core.tags =
      tagsForLabels env issue.labels := rfl
  rw [this, tagsForLabels_toFinset]

/-! ## C2 — sync on a Missing response unlinks and succeeds -/

/-- **C2.** `github_issue_sync` on a Missing (404/410) fetch: the acting
user's config row is entirely nulled, the hidden tag is removed, one sync
log row with status `missing` is appended, and the route returns a
successful (200, non-error) result carrying the unlinked flag, leaving the
user row untouched. -/
theorem c2_sync_missing_unlinks (actor : Int) (now : String) (env : ScopeEnv)
    (ctx : GitHubCtx) (user : UserState) (e : GitHubError)
    (addProjectOut : Except GitHubError Unit) (t : TaskState)
    (hnum : truthyInt (taskGithubIssueNumber t actor) = true)
    (hmiss : isMissingStatus e.statusCode = true)
    (hnodup : t.core.tags.Nodup)
    (hsane : ∀ s ∈ t.core.tags, lowerStr s = LOCAL_GITHUB_TAG_NAME →
      s = LOCAL_GITHUB_TAG_NAME) :
    lookupTaskConfig (github_issue_sync actor now env (some ctx) user (.error e)
        addProjectOut t).1 (some actor) = some (blankTaskConfig actor) ∧
    LOCAL_GITHUB_TAG_NAME ∉
      (github_issue_sync actor now env (some ctx) user (.error e) addProjectOut t).1.core.tags ∧
    (github_issue_sync actor now env (some ctx) user (.error e) addProjectOut t).2.2.1 =
      [⟨"sync_issue", "missing", some "Linked issue not found while syncing; link removed."⟩] ∧
    (github_issue_sync actor now env (some ctx) user (.error e) addProjectOut t).2.2.2.2 =
      ⟨true, 200, true, some GITHUB_ISSUE_MISSING_MESSAGE⟩ ∧
    (github_issue_sync actor now env (some ctx) user (.error e) addProjectOut t).2.1 = user := by
  have hclear := clearGithubIssueLink_spec actor t
  have hroute : github_issue_sync actor now env (some ctx) user (.error e) addProjectOut t =
      (clearGithubIssueLink actor t, user,
        [⟨"sync_issue", "missing", some "Linked issue not found while syncing; link removed."⟩],
        [], ⟨true, 200, true, some GITHUB_ISSUE_MISSING_MESSAGE⟩) := by
    simp [github_issue_sync, hnum, hmiss]
  rw [hroute]
  refine ⟨hclear.1, ?_, rfl, rfl, rfl⟩
  have htags : (clearGithubIssueLink actor t).core.tags = removeFirstGithubTag t.core.tags :=
    hclear.2.2.1
  rw [htags]
  exact removeFirstGithubTag_not_mem t.core.tags hnodup hsane

/-- Witness for C2 at the concrete linked task and a 404 fetch error. -/
theorem c2_sync_missing_unlinks_witness :
    lookupTaskConfig (github_issue_sync 1 "now" sampleEnv (some sampleCtx) ⟨true, some "tok"⟩
        (.error ⟨"Issue not found", some 404⟩) (.ok ()) openLinkedTask).1 (some 1) =
      some (blankTaskConfig 1) ∧
    LOCAL_GITHUB_TAG_NAME ∉
      (github_issue_sync 1 "now" sampleEnv (some sampleCtx) ⟨true, some "tok"⟩
        (.error ⟨"Issue not found", some 404⟩) (.ok ()) openLinkedTask).1.core.tags ∧
    (github_issue_sync 1 "now" sampleEnv (some sampleCtx) ⟨true, some "tok"⟩
        (.error ⟨"Issue not found", some 404⟩) (.ok ()) openLinkedTask).2.2.1 =
      [⟨"sync_issue", "missing", some "Linked issue not found while syncing; link removed."⟩] ∧
    (github_issue_sync 1 "now" sampleEnv (some sampleCtx) ⟨true, some "tok"⟩
        (.error ⟨"Issue not found", some 404⟩) (.ok ()) openLinkedTask).2.2.2.2 =
      ⟨true, 200, true, some GITHUB_ISSUE_MISSING_MESSAGE⟩ ∧
    (github_issue_sync 1 "now" sampleEnv (some sampleCtx) ⟨true, some "tok"⟩
        (.error ⟨"Issue not found", some 404⟩) (.ok ()) openLinkedTask).2.1 =
      ⟨true, some "tok"⟩ :=
  c2_sync_missing_unlinks 1 "now" sampleEnv sampleCtx ⟨true, some "tok"⟩
    ⟨"Issue not found", some 404⟩ (.ok ()) openLinkedTask
    (by decide) (by decide) (by decide) (by decide)

/-! ## C3 — a successful sync replaces the tag set -/

/-- **C3.** A successful `github_issue_sync` replaces the task's tag set
entirely: afterwards the tag-name set equals exactly the names derived from
the remote labels (empty labels and labels matching the reserved
application label or the hidden tag name are excluded, the rest are
normalized) plus the re-attached hidden tag — any local-only tag present
before the sync is gone. -/
theorem c3_sync_replaces_tags (actor : Int) (now : String) (env : ScopeEnv)
    (ctx : GitHubCtx) (user : UserState) (issue : GitHubIssue)
    (addProjectOut : Except GitHubError Unit) (t : TaskState) (c : TaskGHConfig)
    (hc : lookupTaskConfig t (some actor) = some c)
    (hnum : truthyInt c.githubIssueNumber = true) :
    (github_issue_sync actor now env (some ctx) user (.ok issue) addProjectOut t).1.core.tags.toFinset =
      (normalizedLabels issue.labels).toFinset ∪ {LOCAL_GITHUB_TAG_NAME} := by
  have hguard : truthyInt (taskGithubIssueNumber t actor) = true := by
    rw [taskGithubIssueNumber_of_lookup t actor c hc]
    exact hnum
  have hroute : github_issue_sync actor now env (some ctx) user (.ok issue) addProjectOut t =
      (let t₁ := syncTaskFromIssue actor now env issue t
       let p := applyScopeProjectToTask actor env true (some issue.nodeId) addProjectOut t₁ [] none
       (p.1, user,
         [⟨"sync_issue", "success", some ("Issue #" ++ toString issue.number ++ " synced")⟩],
         p.2, ⟨true, 200, false, none⟩)) := by
    simp [github_issue_sync, hguard]
  rw [hroute]
  show (applyScopeProjectToTask actor env true (some issue.nodeId) addProjectOut
      (syncTaskFromIssue actor now env issue t) [] none).1.core.tags.toFinset = _
  have htags := syncTaskFromIssue_tags actor now env issue t c hc hnum
  have happly : ∀ (u : TaskState) (w : List String) (fm : Option String),
      (applyScopeProjectToTask actor env true (some issue.nodeId) addProjectOut u w fm).1.core.tags =
        u.core.tags := by
    intro u w fm
    unfold applyScopeProjectToTask
    dsimp only
    repeat' split
    all_goals rfl
  rw [happly]
  exact htags

/-- Witness for C3: remote labels `["bug", "feature"]` leave the task with
exactly the tags `{bug, feature, github}`, discarding the local-only tag
`personal`. -/
theorem c3_sync_replaces_tags_witness :
    (github_issue_sync 1 "now" sampleEnv (some sampleCtx) ⟨true, some "tok"⟩
        (.ok sampleIssue) (.ok ()) openLinkedTask).1.core.tags.toFinset =
      (normalizedLabels sampleIssue.labels).toFinset ∪ {LOCAL_GITHUB_TAG_NAME} :=
  c3_sync_replaces_tags 1 "now" sampleEnv sampleCtx ⟨true, some "tok"⟩ sampleIssue (.ok ())
    openLinkedTask openLinkedConfig (by decide) (by decide)

/-! ## C1 — remote close before local completion -/

/-- **C1.** For a linked task with an available GitHub context,
`github_issue_close` performs the remote state change (close, then comment)
before the local completion mutation: on success the event order is
remote-close, remote-comment, local-complete and the task ends completed
with `completedDate` stamped; when the close call fails with Missing the
link is cleared (the acting user's row is nulled) and the completion still
proceeds with a successful result carrying the unlinked flag; on any other
error (Unauthorized included) the task is returned unchanged — `completed`
still false and `completedDate` untouched — and an error result is
surfaced.  The same dichotomy governs a failure of the comment call after a
successful close: a Missing comment failure unlinks (only the re-set issue
state survives on the acting user's row) and completes locally, while any
other comment failure (Unauthorized included) leaves the task unchanged and
surfaces the error. -/
theorem c1_close_remote_before_local (actor : Int) (now : String) (ctx : GitHubCtx)
    (user : UserState) (closeOut : Except GitHubError GitHubIssue)
    (commentOut : Except GitHubError Unit) (t : TaskState)
    (hnum : truthyInt (taskGithubIssueNumber t actor) = true)
    (hincomplete : t.core.completed = false) :
    (∀ issue, closeOut = .ok issue → commentOut = .ok () →
      (github_issue_close actor now (some ctx) user closeOut commentOut t).2.2.2.1 =
        [SyncEvent.remoteCloseIssue, SyncEvent.remoteCommentIssue,
          SyncEvent.localCompleteTask] ∧
      (github_issue_close actor now (some ctx) user closeOut commentOut t).1.core.completed =
        true ∧
      (github_issue_close actor now (some ctx) user closeOut commentOut t).1.core.completedDate =
        some now ∧
      (github_issue_close actor now (some ctx) user closeOut commentOut t).2.2.2.2.success =
        true) ∧
    (∀ e, closeOut = .error e → isMissingStatus e.statusCode = true →
      (github_issue_close actor now (some ctx) user closeOut commentOut t).2.2.2.1 =
        [SyncEvent.remoteCloseIssue, SyncEvent.localCompleteTask] ∧
      lookupTaskConfig (github_issue_close actor now (some ctx) user closeOut commentOut t).1
        (some actor) = some (blankTaskConfig actor) ∧
      (github_issue_close actor now (some ctx) user closeOut commentOut t).1.core.completed =
        true ∧
      (github_issue_close actor now (some ctx) user closeOut commentOut t).1.core.completedDate =
        some now ∧
      (github_issue_close actor now (some ctx) user closeOut commentOut t).2.2.2.2 =
        ⟨true, 200, true, some GITHUB_ISSUE_MISSING_MESSAGE⟩) ∧
    (∀ e, closeOut = .error e → isMissingStatus e.statusCode = false →
      (github_issue_close actor now (some ctx) user closeOut commentOut t).1 = t ∧
      (github_issue_close actor now (some ctx) user closeOut commentOut t).1.core.completed =
        false ∧
      (github_issue_close actor now (some ctx) user closeOut commentOut t).1.core.completedDate =
        t.core.completedDate ∧
      (github_issue_close actor now (some ctx) user closeOut commentOut t).2.2.2.2.success =
        false ∧
      (github_issue_close actor now (some ctx) user closeOut commentOut t).2.2.2.2.httpStatus =
        (githubErrorResponse e).2) ∧
    (∀ issue e, closeOut = .ok issue → commentOut = .error e →
      isMissingStatus e.statusCode = true →
      (github_issue_close actor now (some ctx) user closeOut commentOut t).2.2.2.1 =
        [SyncEvent.remoteCloseIssue, SyncEvent.remoteCommentIssue,
          SyncEvent.localCompleteTask] ∧
      lookupTaskConfig (github_issue_close actor now (some ctx) user closeOut commentOut t).1
        (some actor) =
        some { blankTaskConfig actor with githubIssueState := some issue.state } ∧
      (github_issue_close actor now (some ctx) user closeOut commentOut t).1.core.completed =
        true ∧
      (github_issue_close actor now (some ctx) user closeOut commentOut t).1.core.completedDate =
        some now ∧
      (github_issue_close actor now (some ctx) user closeOut commentOut t).2.2.2.2 =
        ⟨true, 200, true, some GITHUB_ISSUE_MISSING_MESSAGE⟩) ∧
    (∀ issue e, closeOut = .ok issue → commentOut = .error e →
      isMissingStatus e.statusCode = false →
      (github_issue_close actor now (some ctx) user closeOut commentOut t).1 = t ∧
      (github_issue_close actor now (some ctx) user closeOut commentOut t).1.core.completed =
        false ∧
      (github_issue_close actor now (some ctx) user closeOut commentOut t).1.core.completedDate =
        t.core.completedDate ∧
      (github_issue_close actor now (some ctx) user closeOut commentOut t).2.2.2.2.success =
        false ∧
      (github_issue_close actor now (some ctx) user closeOut commentOut t).2.2.2.2.httpStatus =
        (githubErrorResponse e).2) := by
  refine ⟨?_, ?_, ?_, ?_, ?_⟩
  · rintro issue rfl rfl
    have hroute : github_issue_close actor now (some ctx) user (.ok issue) (.ok ()) t =
        finishGithubIssueClose actor now t user []
          [SyncEvent.remoteCloseIssue, SyncEvent.remoteCommentIssue] (some issue) false := by
      simp [github_issue_close, hnum]
    rw [hroute]
    refine ⟨rfl, ?_, ?_, rfl⟩
    · show (setGithubAttr (completeTask now t) actor _).core.completed = true
      have : (setGithubAttr (completeTask now t) actor
          (fun c => { c with githubIssueState := some issue.state })).core.completed =
          (completeTask now t).core.completed := rfl
      rw [this, completeTask_core]
    · show (setGithubAttr (completeTask now t) actor _).core.completedDate = some now
      have : (setGithubAttr (completeTask now t) actor
          (fun c => { c with githubIssueState := some issue.state })).core.completedDate =
          (completeTask now t).core.completedDate := rfl
      rw [this, completeTask_core]
  · rintro e rfl hmiss
    have hroute : github_issue_close actor now (some ctx) user (.error e) commentOut t =
        finishGithubIssueClose actor now (clearGithubIssueLink actor t) user
          [⟨"close_issue", "missing", some "Linked issue not found during close; link removed."⟩]
          [SyncEvent.remoteCloseIssue] none true := by
      simp [github_issue_close, hnum, hmiss]
    rw [hroute]
    have hclear := clearGithubIssueLink_spec actor t
    refine ⟨rfl, ?_, ?_, ?_, rfl⟩
    · show lookupTaskConfig (setGithubAttr
        (completeTask now (clearGithubIssueLink actor t)) actor _) (some actor) = _
      have hl : lookupTaskConfig (completeTask now (clearGithubIssueLink actor t))
          (some actor) = some (blankTaskConfig actor) := by
        rw [lookup_completeTask]
        exact hclear.1
      exact lookup_setGithubAttr_of_some _ actor
        (fun c => { c with githubIssueState := none }) _ (fun _ => rfl) hl
    · show (setGithubAttr (completeTask now (clearGithubIssueLink actor t)) actor _).core.completed = true
      have : (setGithubAttr (completeTask now (clearGithubIssueLink actor t)) actor
          (fun c => { c with githubIssueState := none })).core.completed =
          (completeTask now (clearGithubIssueLink actor t)).core.completed := rfl
      rw [this, completeTask_core]
    · show (setGithubAttr (completeTask now (clearGithubIssueLink actor t)) actor _).core.completedDate = some now
      have : (setGithubAttr (completeTask now (clearGithubIssueLink actor t)) actor
          (fun c => { c with githubIssueState := none })).core.completedDate =
          (completeTask now (clearGithubIssueLink actor t)).core.completedDate := rfl
      rw [this, completeTask_core]
  · rintro e rfl hmiss
    have hroute : github_issue_close actor now (some ctx) user (.error e) commentOut t =
        (t, (if e.statusCode = some 401 ∨ e.statusCode = some 403 then
            invalidateGithub user else user), [], [SyncEvent.remoteCloseIssue],
          ⟨false, (githubErrorResponse e).2, false, some (githubErrorResponse e).1⟩) := by
      simp [github_issue_close, hnum, hmiss]
    rw [hroute]
    exact ⟨rfl, hincomplete, rfl, rfl, rfl⟩
  · rintro issue e rfl rfl hmiss
    have hroute : github_issue_close actor now (some ctx) user (.ok issue) (.error e) t =
        finishGithubIssueClose actor now (clearGithubIssueLink actor t) user
          [⟨"close_issue", "missing", some "Linked issue not found during close; link removed."⟩]
          [SyncEvent.remoteCloseIssue, SyncEvent.remoteCommentIssue] (some issue) true := by
      simp [github_issue_close, hnum, hmiss]
    rw [hroute]
    have hclear := clearGithubIssueLink_spec actor t
    refine ⟨rfl, ?_, ?_, ?_, rfl⟩
    · show lookupTaskConfig (setGithubAttr
        (completeTask now (clearGithubIssueLink actor t)) actor _) (some actor) = _
      have hl : lookupTaskConfig (completeTask now (clearGithubIssueLink actor t))
          (some actor) = some (blankTaskConfig actor) := by
        rw [lookup_completeTask]
        exact hclear.1
      exact lookup_setGithubAttr_of_some _ actor
        (fun c => { c with githubIssueState := some issue.state }) _ (fun _ => rfl) hl
    · show (setGithubAttr (completeTask now (clearGithubIssueLink actor t)) actor _).core.completed = true
      have : (setGithubAttr (completeTask now (clearGithubIssueLink actor t)) actor
          (fun c => { c with githubIssueState := some issue.state })).core.completed =
          (completeTask now (clearGithubIssueLink actor t)).core.completed := rfl
      rw [this, completeTask_core]
    · show (setGithubAttr (completeTask now (clearGithubIssueLink actor t)) actor _).core.completedDate = some now
      have : (setGithubAttr (completeTask now (clearGithubIssueLink actor t)) actor
          (fun c => { c with githubIssueState := some issue.state })).core.completedDate =
          (completeTask now (clearGithubIssueLink actor t)).core.completedDate := rfl
      rw [this, completeTask_core]
  · rintro issue e rfl rfl hmiss
    have hroute : github_issue_close actor now (some ctx) user (.ok issue) (.error e) t =
        (t, (if e.statusCode = some 401 ∨ e.statusCode = some 403 then
            invalidateGithub user else user), [],
          [SyncEvent.remoteCloseIssue, SyncEvent.remoteCommentIssue],
          ⟨false, (githubErrorResponse e).2, false, some (githubErrorResponse e).1⟩) := by
      simp [github_issue_close, hnum, hmiss]
    rw [hroute]
    exact ⟨rfl, hincomplete, rfl, rfl, rfl⟩

/-- Witness for C1 at the concrete linked incomplete task, exercising the
success path (the Missing and error clauses are instantiated vacuously by
the chosen outcome). -/
theorem c1_close_remote_before_local_witness :
    (∀ issue, (.ok sampleClosedIssue : Except GitHubError GitHubIssue) = .ok issue →
      (.ok () : Except GitHubError Unit) = .ok () →
      (github_issue_close 1 "now" (some sampleCtx) ⟨true, some "tok"⟩ (.ok sampleClosedIssue)
          (.ok ()) openLinkedTask).2.2.2.1 =
        [SyncEvent.remoteCloseIssue, SyncEvent.remoteCommentIssue,
          SyncEvent.localCompleteTask] ∧
      (github_issue_close 1 "now" (some sampleCtx) ⟨true, some "tok"⟩ (.ok sampleClosedIssue)
          (.ok ()) openLinkedTask).1.core.completed = true ∧
      (github_issue_close 1 "now" (some sampleCtx) ⟨true, some "tok"⟩ (.ok sampleClosedIssue)
          (.ok ()) openLinkedTask).1.core.completedDate = some "now" ∧
      (github_issue_close 1 "now" (some sampleCtx) ⟨true, some "tok"⟩ (.ok sampleClosedIssue)
          (.ok ()) openLinkedTask).2.2.2.2.success = true) ∧
    (∀ e, (.ok sampleClosedIssue : Except GitHubError GitHubIssue) = .error e →
      isMissingStatus e.statusCode = true →
      (github_issue_close 1 "now" (some sampleCtx) ⟨true, some "tok"⟩ (.ok sampleClosedIssue)
          (.ok ()) openLinkedTask).2.2.2.1 =
        [SyncEvent.remoteCloseIssue, SyncEvent.localCompleteTask] ∧
      lookupTaskConfig (github_issue_close 1 "now" (some sampleCtx) ⟨true, some "tok"⟩
          (.ok sampleClosedIssue) (.ok ()) openLinkedTask).1 (some 1) =
        some (blankTaskConfig 1) ∧
      (github_issue_close 1 "now" (some sampleCtx) ⟨true, some "tok"⟩ (.ok sampleClosedIssue)
          (.ok ()) openLinkedTask).1.core.completed = true ∧
      (github_issue_close 1 "now" (some sampleCtx) ⟨true, some "tok"⟩ (.ok sampleClosedIssue)
          (.ok ()) openLinkedTask).1.core.completedDate = some "now" ∧
      (github_issue_close 1 "now" (some sampleCtx) ⟨true, some "tok"⟩ (.ok sampleClosedIssue)
          (.ok ()) openLinkedTask).2.2.2.2 =
        ⟨true, 200, true, some GITHUB_ISSUE_MISSING_MESSAGE⟩) ∧
    (∀ e, (.ok sampleClosedIssue : Except GitHubError GitHubIssue) = .error e →
      isMissingStatus e.statusCode = false →
      (github_issue_close 1 "now" (some sampleCtx) ⟨true, some "tok"⟩ (.ok sampleClosedIssue)
          (.ok ()) openLinkedTask).1 = openLinkedTask ∧
      (github_issue_close 1 "now" (some sampleCtx) ⟨true, some "tok"⟩ (.ok sampleClosedIssue)
          (.ok ()) openLinkedTask).1.core.completed = false ∧
      (github_issue_close 1 "now" (some sampleCtx) ⟨true, some "tok"⟩ (.ok sampleClosedIssue)
          (.ok ()) openLinkedTask).1.core.completedDate = openLinkedTask.core.completedDate ∧
      (github_issue_close 1 "now" (some sampleCtx) ⟨true, some "tok"⟩ (.ok sampleClosedIssue)
          (.ok ()) openLinkedTask).2.2.2.2.success = false ∧
      (github_issue_close 1 "now" (some sampleCtx) ⟨true, some "tok"⟩ (.ok sampleClosedIssue)
          (.ok ()) openLinkedTask).2.2.2.2.httpStatus = (githubErrorResponse e).2) ∧
    (∀ issue e, (.ok sampleClosedIssue : Except GitHubError GitHubIssue) = .ok issue →
      (.ok () : Except GitHubError Unit) = .error e →
      isMissingStatus e.statusCode = true →
      (github_issue_close 1 "now" (some sampleCtx) ⟨true, some "tok"⟩ (.ok sampleClosedIssue)
          (.ok ()) openLinkedTask).2.2.2.1 =
        [SyncEvent.remoteCloseIssue, SyncEvent.remoteCommentIssue,
          SyncEvent.localCompleteTask] ∧
      lookupTaskConfig (github_issue_close 1 "now" (some sampleCtx) ⟨true, some "tok"⟩
          (.ok sampleClosedIssue) (.ok ()) openLinkedTask).1 (some 1) =
        some { blankTaskConfig 1 with githubIssueState := some issue.state } ∧
      (github_issue_close 1 "now" (some sampleCtx) ⟨true, some "tok"⟩ (.ok sampleClosedIssue)
          (.ok ()) openLinkedTask).1.core.completed = true ∧
      (github_issue_close 1 "now" (some sampleCtx) ⟨true, some "tok"⟩ (.ok sampleClosedIssue)
          (.ok ()) openLinkedTask).1.core.completedDate = some "now" ∧
      (github_issue_close 1 "now" (some sampleCtx) ⟨true, some "tok"⟩ (.ok sampleClosedIssue)
          (.ok ()) openLinkedTask).2.2.2.2 =
        ⟨true, 200, true, some GITHUB_ISSUE_MISSING_MESSAGE⟩) ∧
    (∀ issue e, (.ok sampleClosedIssue : Except GitHubError GitHubIssue) = .ok issue →
      (.ok () : Except GitHubError Unit) = .error e →
      isMissingStatus e.statusCode = false →
      (github_issue_close 1 "now" (some sampleCtx) ⟨true, some "tok"⟩ (.ok sampleClosedIssue)
          (.ok ()) openLinkedTask).1 = openLinkedTask ∧
      (github_issue_close 1 "now" (some sampleCtx) ⟨true, some "tok"⟩ (.ok sampleClosedIssue)
          (.ok ()) openLinkedTask).1.core.completed = false ∧
      (github_issue_close 1 "now" (some sampleCtx) ⟨true, some "tok"⟩ (.ok sampleClosedIssue)
          (.ok ()) openLinkedTask).1.core.completedDate = openLinkedTask.core.completedDate ∧
      (github_issue_close 1 "now" (some sampleCtx) ⟨true, some "tok"⟩ (.ok sampleClosedIssue)
          (.ok ()) openLinkedTask).2.2.2.2.success = false ∧
      (github_issue_close 1 "now" (some sampleCtx) ⟨true, some "tok"⟩ (.ok sampleClosedIssue)
          (.ok ()) openLinkedTask).2.2.2.2.httpStatus = (githubErrorResponse e).2) :=
  c1_close_remote_before_local 1 "now" sampleCtx ⟨true, some "tok"⟩ (.ok sampleClosedIssue)
    (.ok ()) openLinkedTask (by decide) (by decide)

/-! ## Lemmas for the hidden-tag invariant (C6) -/

theorem updateRow_ensureRow_nil (a : Int) (f : TaskGHConfig → TaskGHConfig) :
    updateRow (ensureRow [] a) a f = [f (blankTaskConfig a)] := by
  simp [ensureRow, updateRow, List.find?, blankTaskConfig]

theorem updateRow_ensureRow_cons (c : TaskGHConfig) (rest : List TaskGHConfig) (a : Int)
    (f : TaskGHConfig → TaskGHConfig) :
    updateRow (ensureRow (c :: rest) a) a f =
      if c.userId = a then f c :: rest
      else c :: updateRow (ensureRow rest a) a f := by
  by_cases h : c.userId = a
  · rw [if_pos h]
    unfold ensureRow
    rw [List.find?_cons_of_pos _ (by simp [h])]
    unfold updateRow
    rw [if_pos h]
  · rw [if_neg h]
    unfold ensureRow
    rw [List.find?_cons_of_neg _ (by simp [h])]
    cases hres : rest.find? (fun x => x.userId == a) with
    | some d => simp [updateRow, h]
    | none => simp [updateRow, h]

/-- Every row after get-or-create-then-update satisfies `P` provided the
untouched rows of other users and the updated row do. -/
theorem updateRow_ensureRow_forall (cs : List TaskGHConfig) (a : Int)
    (f : TaskGHConfig → TaskGHConfig) (P : TaskGHConfig → Prop)
    (huniq : (cs.map (fun c => c.userId)).Nodup)
    (hother : ∀ c ∈ cs, c.userId ≠ a → P c)
    (hupd : ∀ c, P (f c)) :
    ∀ x ∈ updateRow (ensureRow cs a) a f, P x := by
  induction cs with
  | nil =>
    rw [updateRow_ensureRow_nil]
    intro x hx
    rw [List.mem_singleton] at hx
    exact hx ▸ hupd _
  | cons c rest ih =>
    rw [updateRow_ensureRow_cons]
    rw [List.map_cons, List.nodup_cons] at huniq
    by_cases h : c.userId = a
    · rw [if_pos h]
      intro x hx
      rcases List.mem_cons.mp hx with hx | hx
      · exact hx ▸ hupd c
      · refine hother x (List.mem_cons_of_mem _ hx) ?_
        intro hxa
        exact huniq.1 (h ▸ hxa ▸ List.mem_map_of_mem (fun c => c.userId) hx)
    · rw [if_neg h]
      intro x hx
      rcases List.mem_cons.mp hx with hx | hx
      · exact hx ▸ hother c (List.mem_cons_self c rest) (hx ▸ h)
      · exact ih huniq.2 (fun d hd hda => hother d (List.mem_cons_of_mem _ hd) hda) x hx

/-- Get-or-create-then-update with a link-status-preserving update leaves
"some row has an issue link" unchanged. -/
theorem exists_linked_updateRow_ensureRow (cs : List TaskGHConfig) (a : Int)
    (f : TaskGHConfig → TaskGHConfig)
    (hf : ∀ c, hasIssueLink (f c) = hasIssueLink c) :
    (∃ c ∈ updateRow (ensureRow cs a) a f, hasIssueLink c = true) ↔
      (∃ c ∈ cs, hasIssueLink c = true) := by
  induction cs with
  | nil =>
    rw [updateRow_ensureRow_nil]
    constructor
    · rintro ⟨c, hc, hlink⟩
      rw [List.mem_singleton] at hc
      subst hc
      rw [hf] at hlink
      simp [hasIssueLink, blankTaskConfig, truthyInt] at hlink
    · rintro ⟨c, hc, _⟩
      exact absurd hc (List.not_mem_nil c)
  | cons c rest ih =>
    rw [updateRow_ensureRow_cons]
    by_cases h : c.userId = a
    · rw [if_pos h]
      simp only [List.mem_cons, exists_eq_or_imp, hf]
    · rw [if_neg h]
      simp only [List.mem_cons, exists_eq_or_imp, ih]

theorem hiddenTagInvariant_completeTask (now : String) (t : TaskState)
    (h : hiddenTagInvariant t) : hiddenTagInvariant (completeTask now t) := by
  unfold hiddenTagInvariant at h ⊢
  rw [completeTask_core]
  simpa using h

theorem hiddenTagInvariant_uncompleteTask (t : TaskState)
    (h : hiddenTagInvariant t) : hiddenTagInvariant (uncompleteTask t) := by
  unfold hiddenTagInvariant at h ⊢
  rw [uncompleteTask_core]
  simpa using h

theorem hiddenTagInvariant_setGithubAttr (actor : Int) (f : TaskGHConfig → TaskGHConfig)
    (t : TaskState) (hf : ∀ c, hasIssueLink (f c) = hasIssueLink c)
    (h : hiddenTagInvariant t) : hiddenTagInvariant (setGithubAttr t actor f) := by
  unfold hiddenTagInvariant at h ⊢
  have htags : (setGithubAttr t actor f).core.tags = t.core.tags := rfl
  have hconfigs : (setGithubAttr t actor f).core.configs =
      updateRow (ensureRow t.core.configs actor) actor f := rfl
  rw [htags, hconfigs, exists_linked_updateRow_ensureRow _ _ _ hf]
  exact h

theorem hiddenTagInvariant_clear (actor : Int) (t : TaskState)
    (huniq : (t.core.configs.map (fun c => c.userId)).Nodup)
    (honly : ∀ c ∈ t.core.configs, hasIssueLink c = true → c.userId = actor)
    (hnodup : t.core.tags.Nodup)
    (hsane : ∀ s ∈ t.core.tags, lowerStr s = LOCAL_GITHUB_TAG_NAME →
      s = LOCAL_GITHUB_TAG_NAME) :
    hiddenTagInvariant (clearGithubIssueLink actor t) := by
  have htags := (clearGithubIssueLink_spec actor t).2.2.1
  unfold hiddenTagInvariant
  rw [htags]
  have hnot := removeFirstGithubTag_not_mem t.core.tags hnodup hsane
  have hlinks : ∀ x ∈ (clearGithubIssueLink actor t).core.configs,
      ¬ hasIssueLink x = true := by
    have hcfg : (clearGithubIssueLink actor t).core.configs =
        updateRow (ensureRow t.core.configs actor) actor clearIssueFields := rfl
    rw [hcfg]
    refine updateRow_ensureRow_forall t.core.configs actor clearIssueFields _ huniq ?_ ?_
    · intro c hc hne hlink
      exact hne (honly c hc hlink)
    · intro c hlink
      simp [hasIssueLink, clearIssueFields, truthyInt] at hlink
  constructor
  · intro hmem
    exact absurd hmem hnot
  · rintro ⟨c, hc, hlink⟩
    exact absurd hlink (hlinks c hc)

theorem hiddenTagInvariant_of_linked_and_tag (t : TaskState) (a : Int) (c : TaskGHConfig)
    (hc : lookupTaskConfig t (some a) = some c)
    (hlink : hasIssueLink c = true)
    (htag : LOCAL_GITHUB_TAG_NAME ∈ t.core.tags) : hiddenTagInvariant t := by
  unfold hiddenTagInvariant
  constructor
  · intro _
    exact ⟨c, List.mem_of_find?_eq_some hc, hlink⟩
  · intro _
    exact htag

theorem lookup_ensureLocalGithubTag (a : Int) (t : TaskState) (b : Option Int) :
    lookupTaskConfig (ensureLocalGithubTag a t) b = lookupTaskConfig t b := by
  unfold ensureLocalGithubTag
  split
  · rfl
  · split
    · rfl
    · cases t with
      | mk core subtasks => cases b <;> rfl

theorem ensureLocalGithubTag_mem (a : Int) (t : TaskState) (c : TaskGHConfig)
    (hc : lookupTaskConfig t (some a) = some c)
    (hnum : truthyInt c.githubIssueNumber = true) :
    LOCAL_GITHUB_TAG_NAME ∈ (ensureLocalGithubTag a t).core.tags := by
  unfold ensureLocalGithubTag
  rw [taskGithubIssueNumber_of_lookup t a c hc, hnum, if_neg (by simp)]
  by_cases hmem : LOCAL_GITHUB_TAG_NAME ∈ t.core.tags
  · rw [if_pos hmem]
    exact hmem
  · rw [if_neg hmem]
    have : (t.withCore { t.core with
        tags := t.core.tags ++ [LOCAL_GITHUB_TAG_NAME] }).core.tags =
        t.core.tags ++ [LOCAL_GITHUB_TAG_NAME] := rfl
    rw [this]
    simp

theorem applyScopeProjectToTask_tags (actor : Int) (env : ScopeEnv) (hasCtx : Bool)
    (nid : Option String) (addOut : Except GitHubError Unit) (u : TaskState)
    (w : List String) (fm : Option String) :
    (applyScopeProjectToTask actor env hasCtx nid addOut u w fm).1.core.tags = u.core.tags := by
  unfold applyScopeProjectToTask
  dsimp only
  repeat' split
  all_goals rfl

theorem lookup_applyScopeProjectToTask_of_some (actor : Int) (env : ScopeEnv) (hasCtx : Bool)
    (nid : Option String) (addOut : Except GitHubError Unit) (u : TaskState)
    (w : List String) (fm : Option String) (c : TaskGHConfig)
    (hc : lookupTaskConfig u (some actor) = some c) :
    ∃ c', lookupTaskConfig (applyScopeProjectToTask actor env hasCtx nid addOut u w fm).1
        (some actor) = some c' ∧
      c'.githubIssueId = c.githubIssueId ∧ c'.githubIssueNumber = c.githubIssueNumber := by
  unfold applyScopeProjectToTask
  dsimp only
  repeat' split
  all_goals first
    | exact ⟨c, hc, rfl, rfl⟩
    | exact ⟨_, lookup_setGithubAttr_of_some _ _ _ _ (fun _ => rfl) hc, rfl, rfl⟩

theorem linked_row_of_guard (t : TaskState) (actor : Int)
    (howner : t.core.ownerId = some actor)
    (hguard : truthyInt (taskGithubIssueNumber t actor) = true) :
    ∃ c, lookupTaskConfig t (some actor) = some c ∧ truthyInt c.githubIssueNumber = true := by
  cases hl : lookupTaskConfig t (some actor) with
  | some c =>
    refine ⟨c, rfl, ?_⟩
    rwa [taskGithubIssueNumber_of_lookup t actor c hl] at hguard
  | none =>
    exfalso
    have hnone : taskGithubIssueNumber t actor = none := by
      unfold taskGithubIssueNumber getGithubAttr getTaskGithubConfig getTaskOwnerGithubConfig
      rw [howner]
      simp [hl]
    rw [hnone] at hguard
    simp [truthyInt] at hguard

/-- Invariant preservation through `finishGithubIssueClose`. -/
theorem hiddenTagInvariant_finishClose (actor : Int) (now : String) (t : TaskState)
    (user : UserState) (logs : List SyncLogRecord) (events : List SyncEvent)
    (issueVar : Option GitHubIssue) (unlinked : Bool)
    (h : hiddenTagInvariant t) :
    hiddenTagInvariant
      (finishGithubIssueClose actor now t user logs events issueVar unlinked).1 := by
  unfold finishGithubIssueClose
  cases issueVar with
  | some issue =>
    exact hiddenTagInvariant_setGithubAttr actor _ _ (fun c => rfl)
      (hiddenTagInvariant_completeTask now t h)
  | none =>
    exact hiddenTagInvariant_setGithubAttr actor _ _ (fun c => rfl)
      (hiddenTagInvariant_completeTask now t h)

/-- Invariant preservation through `github_issue_close` acting as the task
owner. -/
theorem hiddenTagInvariant_close_route (actor : Int) (now : String)
    (ctxo : Option GitHubCtx) (user : UserState)
    (closeOut : Except GitHubError GitHubIssue) (commentOut : Except GitHubError Unit)
    (t : TaskState)
    (huniq : (t.core.configs.map (fun c => c.userId)).Nodup)
    (honly : ∀ c ∈ t.core.configs, hasIssueLink c = true → c.userId = actor)
    (hnodup : t.core.tags.Nodup)
    (hsane : ∀ s ∈ t.core.tags, lowerStr s = LOCAL_GITHUB_TAG_NAME →
      s = LOCAL_GITHUB_TAG_NAME)
    (hpre : hiddenTagInvariant t) :
    hiddenTagInvariant (github_issue_close actor now ctxo user closeOut commentOut t).1 := by
  have hclearInv := hiddenTagInvariant_clear actor t huniq honly hnodup hsane
  by_cases hguard : truthyInt (taskGithubIssueNumber t actor) = true
  · cases ctxo with
    | none => simpa [github_issue_close, hguard] using hpre
    | some ctx =>
      cases closeOut with
      | ok issue =>
        cases commentOut with
        | ok u =>
          have hroute : github_issue_close actor now (some ctx) user (.ok issue) (.ok u) t =
              finishGithubIssueClose actor now t user []
                [SyncEvent.remoteCloseIssue, SyncEvent.remoteCommentIssue] (some issue)
                false := by
            simp [github_issue_close, hguard]
          rw [hroute]
          exact hiddenTagInvariant_finishClose actor now t user _ _ _ _ hpre
        | error e =>
          by_cases hmiss : isMissingStatus e.statusCode = true
          · have hroute : github_issue_close actor now (some ctx) user (.ok issue)
                (.error e) t =
                finishGithubIssueClose actor now (clearGithubIssueLink actor t) user
                  [⟨"close_issue", "missing",
                    some "Linked issue not found during close; link removed."⟩]
                  [SyncEvent.remoteCloseIssue, SyncEvent.remoteCommentIssue] (some issue)
                  true := by
              simp [github_issue_close, hguard, hmiss]
            rw [hroute]
            exact hiddenTagInvariant_finishClose actor now _ user _ _ _ _ hclearInv
          · have hroute : (github_issue_close actor now (some ctx) user (.ok issue)
                (.error e) t).1 = t := by
              simp [github_issue_close, hguard, hmiss]
            rw [hroute]
            exact hpre
      | error e =>
        by_cases hmiss : isMissingStatus e.statusCode = true
        · have hroute : github_issue_close actor now (some ctx) user (.error e) commentOut t =
              finishGithubIssueClose actor now (clearGithubIssueLink actor t) user
                [⟨"close_issue", "missing",
                  some "Linked issue not found during close; link removed."⟩]
                [SyncEvent.remoteCloseIssue] none true := by
            simp [github_issue_close, hguard, hmiss]
          rw [hroute]
          exact hiddenTagInvariant_finishClose actor now _ user _ _ _ _ hclearInv
        · have hroute : (github_issue_close actor now (some ctx) user (.error e)
              commentOut t).1 = t := by
            simp [github_issue_close, hguard, hmiss]
          rw [hroute]
          exact hpre
  · have hroute : (github_issue_close actor now ctxo user closeOut commentOut t).1 = t := by
      simp [github_issue_close, hguard]
    rw [hroute]
    exact hpre

/-- After `_sync_task_from_issue` acting as a linked task owner, the task
carries the hidden tag and the acting user's row is linked (the copied
issue id being nonzero). -/
theorem hiddenTagInvariant_syncTaskFromIssue (actor : Int) (now : String) (env : ScopeEnv)
    (issue : GitHubIssue) (t : TaskState) (c : TaskGHConfig)
    (hc : lookupTaskConfig t (some actor) = some c)
    (hnum : truthyInt c.githubIssueNumber = true)
    (hid : issue.id ≠ 0) :
    ∃ c', lookupTaskConfig (syncTaskFromIssue actor now env issue t) (some actor) = some c' ∧
      hasIssueLink c' = true ∧
      LOCAL_GITHUB_TAG_NAME ∈ (syncTaskFromIssue actor now env issue t).core.tags := by
  obtain ⟨c₃, h4, hid3, hnum3, _⟩ := syncSteps_lookup actor now env issue t c hc
  have hwc : lookupTaskConfig
      ((syncCompletionStep now issue (syncProjectStep actor env
        (syncMilestoneStep actor issue (syncNameStep issue
          (syncIdentityStep actor issue t))))).withCore
        { (syncCompletionStep now issue (syncProjectStep actor env
            (syncMilestoneStep actor issue (syncNameStep issue
              (syncIdentityStep actor issue t))))).core with
          tags := tagsForLabels env issue.labels }) (some actor) = some c₃ := by
    rw [lookup_withCore]
    exact h4
  have hlink : hasIssueLink c₃ = true := by
    unfold hasIssueLink
    rw [hid3, hnum3]
    have h1 : truthyInt (some issue.id) = true := by simp [truthyInt, hid]
    rw [h1, hnum]
    rfl
  have hnum' : truthyInt c₃.githubIssueNumber = true := by
    rw [hnum3]
    exact hnum
  refine ⟨c₃, ?_, hlink, ?_⟩
  · show lookupTaskConfig (ensureLocalGithubTag actor _) (some actor) = some c₃
    rw [lookup_ensureLocalGithubTag]
    exact hwc
  · exact ensureLocalGithubTag_mem actor _ c₃ hwc hnum'

/-- Invariant preservation through `github_issue_sync` acting as the task
owner (the fetched issue's id is nonzero, as GitHub ids are). -/
theorem hiddenTagInvariant_sync_route (actor : Int) (now : String) (env : ScopeEnv)
    (ctxo : Option GitHubCtx) (user : UserState)
    (fetchOut : Except GitHubError GitHubIssue) (addOut : Except GitHubError Unit)
    (t : TaskState)
    (howner : t.core.ownerId = some actor)
    (huniq : (t.core.configs.map (fun c => c.userId)).Nodup)
    (honly : ∀ c ∈ t.core.configs, hasIssueLink c = true → c.userId = actor)
    (hnodup : t.core.tags.Nodup)
    (hsane : ∀ s ∈ t.core.tags, lowerStr s = LOCAL_GITHUB_TAG_NAME →
      s = LOCAL_GITHUB_TAG_NAME)
    (hpre : hiddenTagInvariant t)
    (hids : ∀ issue, fetchOut = .ok issue → issue.id ≠ 0) :
    hiddenTagInvariant (github_issue_sync actor now env ctxo user fetchOut addOut t).1 := by
  by_cases hguard : truthyInt (taskGithubIssueNumber t actor) = true
  · cases ctxo with
    | none => simpa [github_issue_sync, hguard] using hpre
    | some ctx =>
      cases fetchOut with
      | error e =>
        by_cases hmiss : isMissingStatus e.statusCode = true
        · have hroute : (github_issue_sync actor now env (some ctx) user (.error e)
              addOut t).1 = clearGithubIssueLink actor t := by
            simp [github_issue_sync, hguard, hmiss]
          rw [hroute]
          exact hiddenTagInvariant_clear actor t huniq honly hnodup hsane
        · have hroute : (github_issue_sync actor now env (some ctx) user (.error e)
              addOut t).1 = t := by
            simp [github_issue_sync, hguard, hmiss]
          rw [hroute]
          exact hpre
      | ok issue =>
        obtain ⟨c, hc, hnum⟩ := linked_row_of_guard t actor howner hguard
        obtain ⟨c', hc', hlink', htag'⟩ := hiddenTagInvariant_syncTaskFromIssue actor now env
          issue t c hc hnum (hids issue rfl)
        have hroute : (github_issue_sync actor now env (some ctx) user (.ok issue)
            addOut t).1 =
            (applyScopeProjectToTask actor env true (some issue.nodeId) addOut
              (syncTaskFromIssue actor now env issue t) [] none).1 := by
          simp [github_issue_sync, hguard]
        rw [hroute]
        obtain ⟨c'', hc'', hid'', hnum''⟩ := lookup_applyScopeProjectToTask_of_some actor env
          true (some issue.nodeId) addOut (syncTaskFromIssue actor now env issue t) [] none
          c' hc'
        refine hiddenTagInvariant_of_linked_and_tag _ actor c'' hc'' ?_ ?_
        · unfold hasIssueLink at hlink' ⊢
          rw [hid'', hnum'']
          exact hlink'
        · rw [applyScopeProjectToTask_tags]
          exact htag'
  · have hroute : (github_issue_sync actor now env ctxo user fetchOut addOut t).1 = t := by
      cases ctxo <;> simp [github_issue_sync, hguard]
    rw [hroute]
    exact hpre

/-- Invariant preservation through the `complete_task` toggle acting as the
task owner. -/
theorem hiddenTagInvariant_toggle_route (actor : Int) (now : String) (canEdit : Bool)
    (ctxo : Option GitHubCtx) (user : UserState)
    (reopenOut : Except GitHubError GitHubIssue)
    (closeOut : Except GitHubError GitHubIssue) (commentOut : Except GitHubError Unit)
    (t : TaskState)
    (huniq : (t.core.configs.map (fun c => c.userId)).Nodup)
    (honly : ∀ c ∈ t.core.configs, hasIssueLink c = true → c.userId = actor)
    (hnodup : t.core.tags.Nodup)
    (hsane : ∀ s ∈ t.core.tags, lowerStr s = LOCAL_GITHUB_TAG_NAME →
      s = LOCAL_GITHUB_TAG_NAME)
    (hpre : hiddenTagInvariant t) :
    hiddenTagInvariant
      (complete_task_route actor now canEdit ctxo user reopenOut closeOut commentOut t).1 := by
  have hclearInv := hiddenTagInvariant_clear actor t huniq honly hnodup hsane
  cases canEdit with
  | false => simpa [complete_task_route] using hpre
  | true =>
    by_cases hremote : (truthyInt (taskGithubIssueNumber t actor) && ctxo.isSome) = true
    · cases hcompleted : t.core.completed with
      | true =>
        cases reopenOut with
        | ok issue =>
          have hroute : (complete_task_route actor now true ctxo user (.ok issue) closeOut
              commentOut t).1 =
              uncompleteTask (setGithubAttr t actor
                fun c => { c with githubIssueState := some issue.state }) := by
            simp [complete_task_route, hremote, hcompleted]
          rw [hroute]
          exact hiddenTagInvariant_uncompleteTask _
            (hiddenTagInvariant_setGithubAttr actor _ t (fun c => rfl) hpre)
        | error e =>
          by_cases hmiss : isMissingStatus e.statusCode = true
          · have hroute : (complete_task_route actor now true ctxo user (.error e) closeOut
                commentOut t).1 = uncompleteTask (clearGithubIssueLink actor t) := by
              simp [complete_task_route, hremote, hcompleted, hmiss]
            rw [hroute]
            exact hiddenTagInvariant_uncompleteTask _ hclearInv
          · have hroute : (complete_task_route actor now true ctxo user (.error e) closeOut
                commentOut t).1 = t := by
              simp [complete_task_route, hremote, hcompleted, hmiss]
            rw [hroute]
            exact hpre
      | false =>
        cases closeOut with
        | ok issue =>
          cases commentOut with
          | ok u =>
            have hroute : (complete_task_route actor now true ctxo user reopenOut (.ok issue)
                (.ok u) t).1 =
                completeTask now (setGithubAttr t actor
                  fun c => { c with githubIssueState := some issue.state }) := by
              simp [complete_task_route, hremote, hcompleted]
            rw [hroute]
            exact hiddenTagInvariant_completeTask now _
              (hiddenTagInvariant_setGithubAttr actor _ t (fun c => rfl) hpre)
          | error e =>
            by_cases hmiss : isMissingStatus e.statusCode = true
            · have hroute : (complete_task_route actor now true ctxo user reopenOut
                  (.ok issue) (.error e) t).1 =
                  completeTask now (clearGithubIssueLink actor t) := by
                simp [complete_task_route, hremote, hcompleted, hmiss]
              rw [hroute]
              exact hiddenTagInvariant_completeTask now _ hclearInv
            · have hroute : (complete_task_route actor now true ctxo user reopenOut
                  (.ok issue) (.error e) t).1 = t := by
                simp [complete_task_route, hremote, hcompleted, hmiss]
              rw [hroute]
              exact hpre
        | error e =>
          by_cases hmiss : isMissingStatus e.statusCode = true
          · have hroute : (complete_task_route actor now true ctxo user reopenOut (.error e)
                commentOut t).1 = completeTask now (clearGithubIssueLink actor t) := by
              simp [complete_task_route, hremote, hcompleted, hmiss]
            rw [hroute]
            exact hiddenTagInvariant_completeTask now _ hclearInv
          · have hroute : (complete_task_route actor now true ctxo user reopenOut (.error e)
                commentOut t).1 = t := by
              simp [complete_task_route, hremote, hcompleted, hmiss]
            rw [hroute]
            exact hpre
    · cases hcompleted : t.core.completed with
      | true =>
        have hroute : (complete_task_route actor now true ctxo user reopenOut closeOut
            commentOut t).1 = uncompleteTask t := by
          simp [complete_task_route, hremote, hcompleted]
        rw [hroute]
        exact hiddenTagInvariant_uncompleteTask t hpre
      | false =>
        have hroute : (complete_task_route actor now true ctxo user reopenOut closeOut
            commentOut t).1 = completeTask now t := by
          simp [complete_task_route, hremote, hcompleted]
        rw [hroute]
        exact hiddenTagInvariant_completeTask now t hpre

/-- Invariant after the persistence segment of `github_issue_create` (the
created issue's id and number are nonzero, as GitHub's are). -/
theorem hiddenTagInvariant_createPersist (actor : Int) (env : ScopeEnv) (ctx : GitHubCtx)
    (addOut : Except GitHubError Unit) (issue : GitHubIssue) (t : TaskState)
    (hid : issue.id ≠ 0) (hnum : issue.number ≠ 0) :
    hiddenTagInvariant (githubIssueCreatePersist actor env ctx addOut issue t).1 := by
  have hgoal : (githubIssueCreatePersist actor env ctx addOut issue t).1 =
      ensureLocalGithubTag actor (setGithubAttr
        (applyScopeProjectToTask actor env true (some issue.nodeId) addOut t []
          (some "Issue created but could not be added to the configured project.")).1 actor
        fun c =>
          { c with
            githubIssueId := some issue.id
            githubIssueNodeId := if issue.nodeId != "" then some issue.nodeId else none
            githubIssueNumber := some issue.number
            githubIssueUrl := some issue.url
            githubIssueState := some issue.state
            githubRepoId := ctx.repoId
            githubRepoName := some ctx.name
            githubRepoOwner := some ctx.owner
            githubMilestoneNumber := issue.milestoneNumber
            githubMilestoneTitle :=
              if issue.milestoneTitle != "" then some issue.milestoneTitle else none
            githubMilestoneDueOn := parseGithubDatetime issue.milestoneDueOn }) := rfl
  rw [hgoal]
  have hset := lookup_setGithubAttr_self
    (applyScopeProjectToTask actor env true (some issue.nodeId) addOut t []
      (some "Issue created but could not be added to the configured project.")).1 actor
    (fun c =>
      { c with
        githubIssueId := some issue.id
        githubIssueNodeId := if issue.nodeId != "" then some issue.nodeId else none
        githubIssueNumber := some issue.number
        githubIssueUrl := some issue.url
        githubIssueState := some issue.state
        githubRepoId := ctx.repoId
        githubRepoName := some ctx.name
        githubRepoOwner := some ctx.owner
        githubMilestoneNumber := issue.milestoneNumber
        githubMilestoneTitle :=
          if issue.milestoneTitle != "" then some issue.milestoneTitle else none
        githubMilestoneDueOn := parseGithubDatetime issue.milestoneDueOn })
    (fun _ => rfl)
  set c' := (fun c : TaskGHConfig =>
      { c with
        githubIssueId := some issue.id
        githubIssueNodeId := if issue.nodeId != "" then some issue.nodeId else none
        githubIssueNumber := some issue.number
        githubIssueUrl := some issue.url
        githubIssueState := some issue.state
        githubRepoId := ctx.repoId
        githubRepoName := some ctx.name
        githubRepoOwner := some ctx.owner
        githubMilestoneNumber := issue.milestoneNumber
        githubMilestoneTitle :=
          if issue.milestoneTitle != "" then some issue.milestoneTitle else none
        githubMilestoneDueOn := parseGithubDatetime issue.milestoneDueOn })
    ((lookupTaskConfig (applyScopeProjectToTask actor env true (some issue.nodeId) addOut t []
      (some "Issue created but could not be added to the configured project.")).1 (some actor)).getD
      (blankTaskConfig actor)) with hc'
  have hlink : hasIssueLink c' = true := by
    rw [hc']
    unfold hasIssueLink
    have h1 : truthyInt (some issue.id) = true := by simp [truthyInt, hid]
    have h2 : truthyInt (some issue.number) = true := by simp [truthyInt, hnum]
    simpa using And.intro h1 h2
  have hnum' : truthyInt c'.githubIssueNumber = true := by
    rw [hc']
    simp [truthyInt, hnum]
  refine hiddenTagInvariant_of_linked_and_tag _ actor c' ?_ hlink ?_
  · rw [lookup_ensureLocalGithubTag]
    exact hset
  · exact ensureLocalGithubTag_mem actor _ c' hset hnum'

/-- **C6, counterexample.**  The claimed invariant — the hidden tag is
attached iff some per-user config row has an issue link — is not preserved
by every orchestrator operation: a non-owner editor toggling completion on
a linked open task whose remote close fails with 404 triggers the
Missing-unlink path, which clears the *editor's own* (freshly created,
already blank) config row and removes the hidden tag, while the owner's
row keeps its issue link.  Before the operation the invariant holds for
`openLinkedTask`; after it the tag is gone but the owner's linked row
remains. -/
theorem c6_counterexample :
    hiddenTagInvariant openLinkedTask ∧
    ¬ hiddenTagInvariant
      (complete_task_route 2 "2024-05-02T10:00:00" true (some sampleCtx)
        ⟨true, some "tok"⟩ (.ok sampleIssue) (.error ⟨"Issue not found", some 404⟩)
        (.ok ()) openLinkedTask).1 := by
  constructor
  · decide
  · decide

/-- **C6, amended.**  When the orchestrator operations act as the task's
owner — close (`github_issue_close`), sync (`github_issue_sync`), the
completion toggle (`complete_task`), and the persistence segment of issue
creation — each preserves the invariant that the hidden tag is attached iff
some `TaskGitHubConfig` row has an issue link, provided there is at most
one config row per user, only the owner's row is linked, the task's tags
are duplicate-free with no lower-case look-alike of the hidden tag name,
the invariant held beforehand, and GitHub-reported issue ids/numbers are
nonzero.  (A non-owner editor can break the invariant, per the
counterexample.) -/
theorem c6_amended_hidden_tag_invariant (actor : Int) (now : String) (t : TaskState)
    (howner : t.core.ownerId = some actor)
    (huniq : (t.core.configs.map (fun c => c.userId)).Nodup)
    (honly : ∀ c ∈ t.core.configs, hasIssueLink c = true → c.userId = actor)
    (hnodup : t.core.tags.Nodup)
    (hsane : ∀ s ∈ t.core.tags, lowerStr s = LOCAL_GITHUB_TAG_NAME →
      s = LOCAL_GITHUB_TAG_NAME)
    (hpre : hiddenTagInvariant t) :
    (∀ ctxo user closeOut commentOut,
      hiddenTagInvariant (github_issue_close actor now ctxo user closeOut commentOut t).1) ∧
    (∀ env ctxo user fetchOut addOut,
      (∀ issue, fetchOut = Except.ok issue → issue.id ≠ 0) →
      hiddenTagInvariant (github_issue_sync actor now env ctxo user fetchOut addOut t).1) ∧
    (∀ canEdit ctxo user reopenOut closeOut commentOut,
      hiddenTagInvariant
        (complete_task_route actor now canEdit ctxo user reopenOut closeOut commentOut t).1) ∧
    (∀ env ctx addOut issue, issue.id ≠ 0 → issue.number ≠ 0 →
      hiddenTagInvariant (githubIssueCreatePersist actor env ctx addOut issue t).1) :=
  ⟨fun ctxo user closeOut commentOut =>
      hiddenTagInvariant_close_route actor now ctxo user closeOut commentOut t huniq honly
        hnodup hsane hpre,
    fun env ctxo user fetchOut addOut hids =>
      hiddenTagInvariant_sync_route actor now env ctxo user fetchOut addOut t howner huniq
        honly hnodup hsane hpre hids,
    fun canEdit ctxo user reopenOut closeOut commentOut =>
      hiddenTagInvariant_toggle_route actor now canEdit ctxo user reopenOut closeOut
        commentOut t huniq honly hnodup hsane hpre,
    fun env ctx addOut issue hid hnum =>
      hiddenTagInvariant_createPersist actor env ctx addOut issue t hid hnum⟩

/-- Concrete witness for the amended C6: the owner (user 1) of
`openLinkedTask` closes, syncs, toggles into the Missing-unlink path, and
re-persists a created issue; the invariant holds after each. -/
theorem c6_amended_hidden_tag_invariant_witness :
    hiddenTagInvariant (github_issue_close 1 "2024-05-02T10:00:00" (some sampleCtx)
      ⟨true, some "tok"⟩ (.ok sampleClosedIssue) (.ok ()) openLinkedTask).1 ∧
    hiddenTagInvariant (github_issue_sync 1 "2024-05-02T10:00:00" sampleEnv (some sampleCtx)
      ⟨true, some "tok"⟩ (.ok sampleIssue) (.ok ()) openLinkedTask).1 ∧
    hiddenTagInvariant (complete_task_route 1 "2024-05-02T10:00:00" true (some sampleCtx)
      ⟨true, some "tok"⟩ (.ok sampleIssue) (.error ⟨"Issue not found", some 404⟩)
      (.ok ()) openLinkedTask).1 ∧
    hiddenTagInvariant (githubIssueCreatePersist 1 sampleEnv sampleCtx (.ok ()) sampleIssue
      openLinkedTask).1 := by
  obtain ⟨h1, h2, h3, h4⟩ := c6_amended_hidden_tag_invariant 1 "2024-05-02T10:00:00"
    openLinkedTask (by decide) (by decide) (by decide) (by decide) (by decide) (by decide)
  refine ⟨h1 _ _ _ _, h2 _ _ _ _ _ ?_, h3 _ _ _ _ _ _, h4 _ _ _ _ (by decide) (by decide)⟩
  intro issue hi
  cases hi
  decide

end ProjectsManager
